import Mathlib

/-
Verification development for the ProViso closing-demo engine
(src/reference/closing-demo: engine.py, models.py, ontology.py).

The Python code is shallowly embedded: the entity store is explicit state,
every TransactionEngine method becomes a pure function from an engine state
to a result, a new engine state and a trace of externally visible events
(entity-store writes, version-control commits, audit appends, relationship
inserts).  Collaborator modules absent from the sources (store.py,
versioning.py, relationships.py, terms.py) are modelled from the spec where
a claim depends on them; each such definition carries a note.
-/

namespace ProViso

/-! ## Python-flavoured base values -/

/-- A calendar date, carried opaquely (no claim performs date arithmetic). -/
structure PyDate where
  iso : String
deriving DecidableEq, Repr

/-- A wall-clock timestamp, carried opaquely. -/
structure PyDateTime where
  iso : String
deriving DecidableEq, Repr

/-- A Python float, carried opaquely: the engine only stores and echoes
facility amounts, no claim depends on float arithmetic. -/
structure PyFloat where
  lit : String
deriving DecidableEq, Repr

/-- A value inside a change payload dict passed to the audit log. -/
inductive PyValue where
  | str (s : String)
  | float (f : PyFloat)
  | int (n : Int)
  | none
deriving DecidableEq, Repr

/-- Python truthiness of an optional string: None and the empty string are
falsy, any other string is truthy. -/
def pyTruthy : Option String → Bool
  | Option.none => false
  | Option.some s => !s.isEmpty

/-- Association-list lookup keyed by string (a Python dict read). -/
def alookup (k : String) : List (String × α) → Option α
  | [] => Option.none
  | (k₂, v) :: rest => if k₂ = k then Option.some v else alookup k rest

/-- Association-list insert-or-replace (a Python dict write). -/
def aupsert (k : String) (v : α) : List (String × α) → List (String × α)
  | [] => [(k, v)]
  | (k₂, v₂) :: rest =>
      if k₂ = k then (k, v) :: rest else (k₂, v₂) :: aupsert k v rest

/-- The uuid4 id supply is modelled as an injective function of a counter
threaded through the engine state; ids are opaque unique strings. -/
def mkId (n : Nat) : String :=
  "id_" ++ String.mk (List.replicate n 'x')

/-! ## Enumerations from models.py -/

inductive TransactionType where
  | revolving_credit | term_loan_a | term_loan_b | delayed_draw
  | bridge_loan | abl | multi_tranche
deriving DecidableEq, Repr

inductive DocumentType where
  | credit_agreement | amendment | waiver_doc | consent | joinder
  | officers_certificate | secretary_certificate | incumbency_certificate
  | good_standing | charter_documents | bylaws | resolutions
  | pledge_agreement | security_agreement | guaranty | perfection_certificate
  | ucc_financing_statement | ip_security_agreement
  | legal_opinion | solvency_certificate | compliance_certificate
  | borrowing_base_certificate | financial_statements | pro_forma
  | borrowing_request | notice_of_borrowing | closing_certificate
  | fee_letter | side_letter | exhibit | schedule | other
deriving DecidableEq, Repr

/-- The string value of a DocumentType member. -/
def DocumentType.value : DocumentType → String
  | .credit_agreement => "credit_agreement"
  | .amendment => "amendment"
  | .waiver_doc => "waiver"
  | .consent => "consent"
  | .joinder => "joinder"
  | .officers_certificate => "officers_certificate"
  | .secretary_certificate => "secretary_certificate"
  | .incumbency_certificate => "incumbency_certificate"
  | .good_standing => "good_standing"
  | .charter_documents => "charter_documents"
  | .bylaws => "bylaws"
  | .resolutions => "resolutions"
  | .pledge_agreement => "pledge_agreement"
  | .security_agreement => "security_agreement"
  | .guaranty => "guaranty"
  | .perfection_certificate => "perfection_certificate"
  | .ucc_financing_statement => "ucc_financing_statement"
  | .ip_security_agreement => "ip_security_agreement"
  | .legal_opinion => "legal_opinion"
  | .solvency_certificate => "solvency_certificate"
  | .compliance_certificate => "compliance_certificate"
  | .borrowing_base_certificate => "borrowing_base_certificate"
  | .financial_statements => "financial_statements"
  | .pro_forma => "pro_forma"
  | .borrowing_request => "borrowing_request"
  | .notice_of_borrowing => "notice_of_borrowing"
  | .closing_certificate => "closing_certificate"
  | .fee_letter => "fee_letter"
  | .side_letter => "side_letter"
  | .exhibit => "exhibit"
  | .schedule => "schedule"
  | .other => "other"

inductive DocumentStatus where
  | not_started | drafting | internal_review | out_for_review
  | comments_received | final | executed | filed | superseded
deriving DecidableEq, Repr

/-- The string value of a DocumentStatus member. -/
def DocumentStatus.value : DocumentStatus → String
  | .not_started => "not_started"
  | .drafting => "drafting"
  | .internal_review => "internal_review"
  | .out_for_review => "out_for_review"
  | .comments_received => "comments_received"
  | .final => "final"
  | .executed => "executed"
  | .filed => "filed"
  | .superseded => "superseded"

/-- Declaration-order member list, for Python iteration over the enum. -/
def DocumentStatus.all : List DocumentStatus :=
  [.not_started, .drafting, .internal_review, .out_for_review,
   .comments_received, .final, .executed, .filed, .superseded]

inductive PartyRole where
  | borrower | co_borrower | guarantor | administrative_agent
  | collateral_agent | lender | lead_arranger | syndication_agent
  | documentation_agent | issuing_bank | swingline_lender
deriving DecidableEq, Repr

inductive ConditionStatus where
  | pending | in_progress | satisfied | waived | not_applicable
deriving DecidableEq, Repr

/-- The string value of a ConditionStatus member. -/
def ConditionStatus.value : ConditionStatus → String
  | .pending => "pending"
  | .in_progress => "in_progress"
  | .satisfied => "satisfied"
  | .waived => "waived"
  | .not_applicable => "not_applicable"

/-- Declaration-order member list, for Python iteration over the enum. -/
def ConditionStatus.all : List ConditionStatus :=
  [.pending, .in_progress, .satisfied, .waived, .not_applicable]

/-! ## Entities from models.py -/

/-- models.py Party dataclass. -/
structure Party where
  id : String
  name : String := ""
  short_name : String := ""
  jurisdiction : String := ""
  entity_type : String := ""
  roles : List PartyRole := []
  address : String := ""
  attention : String := ""
  email : String := ""
  signature_block : String := ""
  formation_date : Option PyDate := Option.none
  state_id : String := ""
  ein : String := ""
  created_at : PyDateTime
  updated_at : PyDateTime
  notes : String := ""
deriving DecidableEq, Repr

/-- models.py Document dataclass. -/
structure Document where
  id : String
  document_type : DocumentType := DocumentType.other
  title : String := ""
  description : String := ""
  status : DocumentStatus := DocumentStatus.not_started
  responsible_party_id : Option String := Option.none
  reviewing_parties : List String := []
  due_date : Option PyDate := Option.none
  received_date : Option PyDate := Option.none
  execution_date : Option PyDate := Option.none
  parent_document_id : Option String := Option.none
  related_document_ids : List String := []
  satisfies_condition_ids : List String := []
  current_version : Nat := 1
  file_path : Option String := Option.none
  created_at : PyDateTime
  updated_at : PyDateTime
  notes : String := ""
deriving DecidableEq, Repr

/-- models.py ConditionPrecedent dataclass. -/
structure ConditionPrecedent where
  id : String
  section_reference : String := ""
  title : String := ""
  description : String := ""
  category : String := ""
  status : ConditionStatus := ConditionStatus.pending
  responsible_party_id : Option String := Option.none
  satisfied_by_document_ids : List String := []
  waived_date : Option PyDate := Option.none
  waiver_document_id : Option String := Option.none
  created_at : PyDateTime
  updated_at : PyDateTime
  notes : String := ""
deriving DecidableEq, Repr

/-- models.py Transaction dataclass. -/
structure Transaction where
  id : String
  name : String := ""
  transaction_type : TransactionType := TransactionType.revolving_credit
  facility_amount : PyFloat
  currency : String := "USD"
  signing_date : Option PyDate := Option.none
  closing_date : Option PyDate := Option.none
  maturity_date : Option PyDate := Option.none
  borrower_id : Option String := Option.none
  agent_id : Option String := Option.none
  party_ids : List String := []
  document_ids : List String := []
  condition_ids : List String := []
  amendment_number : Nat := 0
  parent_transaction_id : Option String := Option.none
  is_closed : Bool := false
  created_at : PyDateTime
  updated_at : PyDateTime
  notes : String := ""
deriving DecidableEq, Repr

/-! ## Ontology configuration from ontology.py

The ontology JSON config file is not part of the sources, so the loaded
templates are parameters of the engine configuration. -/

/-- ontology.py DocumentTemplate dataclass. -/
structure DocumentTemplate where
  key : String
  document_type : DocumentType
  default_title : String
  category : Option String := Option.none
  default_responsible_role : Option String := Option.none
  default_due_date_field : Option String := Option.some "closing_date"
deriving DecidableEq, Repr

/-- ontology.py ConditionTemplate dataclass. -/
structure ConditionTemplate where
  section_reference : String
  title : String
  description : String
  category : String
  expected_document_keys : List String := []
deriving DecidableEq, Repr

/-- ontology.py CreditAgreementOntology: a dict of document templates
(association list, keys unique) plus a list of condition templates. -/
structure CreditAgreementOntology where
  name : String
  document_templates : List (String × DocumentTemplate)
  condition_templates : List ConditionTemplate
deriving DecidableEq, Repr

/-- The dynamic getattr on a Transaction restricted to its date fields,
resolving default_due_date_field of a document template. -/
def txnDateField (txn : Transaction) : String → Option PyDate
  | "signing_date" => txn.signing_date
  | "closing_date" => txn.closing_date
  | "maturity_date" => txn.maturity_date
  | _ => Option.none

/-! ## Relationships and audit records

relationships.py and versioning.py are not part of the sources. -/

/-- Relationship edge types used by the engine. -/
inductive RelationshipType where
  | expected_doc_for_condition
deriving DecidableEq, Repr

/-- Modelled from the spec: relationships.py is absent from src/.  Per spec
section 3 a Relationship is a typed directed edge carrying from-entity
type and id, relation type, to-entity type and id and the owning
transaction id; the generated edge id and created timestamp are omitted
because no claim depends on them. -/
structure Relationship where
  from_type : String
  from_id : String
  relation : RelationshipType
  to_type : String
  to_id : String
  transaction_id : String
deriving DecidableEq, Repr

/-- Modelled from the spec: versioning.py is absent from src/.  Per spec
sections 3 and 4.2, AuditLog.append builds a record from the action tag,
entity type, entity id, change payload and the optional external revision
reference, and appends it to the log.  The sequence number, timestamp and
hash-chain digests are omitted because no claim here depends on them. -/
structure AuditRecord where
  action : String
  entity_type : String
  entity_id : String
  changes : List (String × PyValue)
  git_commit : Option String
deriving DecidableEq, Repr

/-- Externally visible effects of one engine call, in program order. -/
inductive Event where
  | save_transaction (id : String)
  | save_document (id : String)
  | save_party (id : String)
  | save_condition (id : String)
  | vc_commit (action entity_type entity_id : String) (result : Option String)
  | audit_append (record : AuditRecord)
  | add_relationships (rels : List Relationship)
  | save_terms (terms : List String)
deriving DecidableEq, Repr

/-! ## The entity store and the engine state -/

/-- Modelled from the spec: store.py (DataStore) is absent from src/.  Per
spec section 6 it is an entity store providing get and save for
Transaction, Document, Party and ConditionPrecedent keyed by string id;
save is insert-or-replace, get is lookup. -/
structure DataStore where
  transactions : List (String × Transaction) := []
  documents : List (String × Document) := []
  parties : List (String × Party) := []
  conditions : List (String × ConditionPrecedent) := []
deriving DecidableEq, Repr

def DataStore.save_transaction (s : DataStore) (t : Transaction) : DataStore :=
  { s with transactions := aupsert t.id t s.transactions }

def DataStore.get_transaction (s : DataStore) (id : String) : Option Transaction :=
  alookup id s.transactions

def DataStore.save_document (s : DataStore) (d : Document) : DataStore :=
  { s with documents := aupsert d.id d s.documents }

def DataStore.get_document (s : DataStore) (id : String) : Option Document :=
  alookup id s.documents

def DataStore.save_party (s : DataStore) (p : Party) : DataStore :=
  { s with parties := aupsert p.id p s.parties }

def DataStore.save_condition (s : DataStore) (c : ConditionPrecedent) : DataStore :=
  { s with conditions := aupsert c.id c s.conditions }

def DataStore.get_condition (s : DataStore) (id : String) : Option ConditionPrecedent :=
  alookup id s.conditions

/-- Modelled from the spec: list_documents of store.py resolves the id list
held by the transaction against the document table. -/
def DataStore.list_documents (s : DataStore) (txn_id : String) : List Document :=
  match s.get_transaction txn_id with
  | Option.none => []
  | Option.some txn => txn.document_ids.filterMap s.get_document

/-- Modelled from the spec: list_conditions of store.py resolves the id list
held by the transaction against the condition table. -/
def DataStore.list_conditions (s : DataStore) (txn_id : String) : List ConditionPrecedent :=
  match s.get_transaction txn_id with
  | Option.none => []
  | Option.some txn => txn.condition_ids.filterMap s.get_condition

/-- Modelled from the spec: list_parties of store.py resolves the id list
held by the transaction against the party table. -/
def DataStore.list_parties (s : DataStore) (txn_id : String) : List Party :=
  match s.get_transaction txn_id with
  | Option.none => []
  | Option.some txn => txn.party_ids.filterMap (alookup · s.parties)

/-- Mutable state reachable from one TransactionEngine instance: the entity
store, the relationship index, the audit log and the uuid supply counter. -/
structure EngineState where
  store : DataStore := {}
  relationships : List Relationship := []
  audit_log : List AuditRecord := []
  next_id : Nat := 0
deriving DecidableEq, Repr

/-- Draw a fresh uuid from the id supply. -/
def freshId (st : EngineState) : String × EngineState :=
  (mkId st.next_id, { st with next_id := st.next_id + 1 })

/-- Modelled from the spec: terms.py is absent from src/.  TermSource is a
Python value-based Enum over source-document strings with, per the spec, a
fallback member OTHER; the engine passes the value credit_agreement by
default, so the model keeps that member, one further ordinary member and
OTHER. -/
inductive TermSource where
  | credit_agreement
  | term_sheet
  | other
deriving DecidableEq, Repr

/-- The string value of a TermSource member. -/
def TermSource.value : TermSource → String
  | .credit_agreement => "credit_agreement"
  | .term_sheet => "term_sheet"
  | .other => "other"

/-- Declaration-order member list of the TermSource enum. -/
def TermSource.members : List TermSource :=
  [.credit_agreement, .term_sheet, .other]

/-- Python value-based enum construction, TermSource(s): the member whose
value equals s, or Option.none where Python raises ValueError. -/
def termSourceFromValue (s : String) : Option TermSource :=
  TermSource.members.find? (fun m => m.value = s)

/-- A snapshot manifest as consumed by the engine (it reads only the id). -/
structure SnapshotManifest where
  id : String
deriving DecidableEq, Repr

/-- An archive entry as consumed by the engine. -/
structure ArchiveEntry where
  content_hash : String
  original_name : String
deriving DecidableEq, Repr

/-- Immutable configuration of one TransactionEngine instance.
versioning_enabled folds the constructor invariant that enable_versioning
and VERSIONING_AVAILABLE together decide whether version_control, audit_log,
snapshot_manager and document_archive are all present or all absent.
The behaviour of the external collaborators is captured by oracles:
vc_commit models VersionControl.commit_change (Option.none when the backend
is unavailable), snapshot_create models SnapshotManager.create_snapshot and
archive_document models DocumentArchive.archive_document, all per the spec
since versioning.py is absent from src/. -/
structure EngineConfig where
  versioning_enabled : Bool
  vc_commit : String → String → String → Option String
  snapshot_create : String → String → SnapshotManifest
  archive_document : String → String → String → List (String × PyValue) → ArchiveEntry
  ontology : CreditAgreementOntology
  today : PyDate
  now : PyDateTime
  terms_enabled : Bool := false
  terms_parse : String → TermSource → List String := fun _ _ => []

/-- engine.py TransactionEngine._log_action (lines 143-163): commit to the
version control backend, then append to the audit log with the returned
revision reference; a no-op when versioning is disabled. -/
def logAction (cfg : EngineConfig) (st : EngineState)
    (action entity_type entity_id : String) (changes : List (String × PyValue)) :
    EngineState × List Event :=
  if cfg.versioning_enabled then
    let git_commit := cfg.vc_commit action entity_type entity_id
    let record : AuditRecord :=
      { action := action, entity_type := entity_type, entity_id := entity_id,
        changes := changes, git_commit := git_commit }
    ({ st with audit_log := st.audit_log ++ [record] },
     [Event.vc_commit action entity_type entity_id git_commit,
      Event.audit_append record])
  else
    (st, [])

/-! ## Transaction creation (engine.py lines 169-299) -/

/-- The per-template loop of _create_standard_documents (engine.py lines
230-243): for each ontology document template, resolve the due date from the
transaction, create a Document with a fresh id and save it, accumulating the
key-to-id map and the id list in template order. -/
def createDocsLoop (cfg : EngineConfig) (txn : Transaction) (st : EngineState) :
    List (String × DocumentTemplate) →
    List (String × String) × List String × EngineState × List Event
  | [] => ([], [], st, [])
  | (key, tmpl) :: rest =>
      let due_date := match tmpl.default_due_date_field with
        | Option.some f => if f.isEmpty then Option.none else txnDateField txn f
        | Option.none => Option.none
      let (did, st1) := freshId st
      let doc : Document :=
        { id := did, document_type := tmpl.document_type,
          title := tmpl.default_title, status := DocumentStatus.not_started,
          due_date := due_date, created_at := cfg.now, updated_at := cfg.now }
      let st2 := { st1 with store := st1.store.save_document doc }
      let r := createDocsLoop cfg txn st2 rest
      ((key, did) :: r.1, did :: r.2.1, r.2.2.1, Event.save_document did :: r.2.2.2)

/-- engine.py TransactionEngine._create_standard_documents (lines 219-247):
run the template loop, set document_ids on the transaction and save it.
The RuntimeError guard for a missing ontology is omitted: the constructor
fails fast, so an engine value always carries a loaded ontology. -/
def create_standard_documents (cfg : EngineConfig) (st : EngineState)
    (txn : Transaction) :
    List (String × String) × Transaction × EngineState × List Event :=
  let r := createDocsLoop cfg txn st cfg.ontology.document_templates
  let txn2 := { txn with document_ids := r.2.1 }
  let st2 := { r.2.2.1 with store := r.2.2.1.store.save_transaction txn2 }
  (r.1, txn2, st2, r.2.2.2 ++ [Event.save_transaction txn2.id])

/-- The relationship edges built for one condition template from its
expected-document keys (engine.py lines 277-291): keys resolved through the
key-to-id map yield one EXPECTED_DOC_FOR_CONDITION edge each; unresolved or
falsy ids are skipped. -/
def expectedEdges (doc_key_map : List (String × String))
    (tmpl : ConditionTemplate) (cond_id txn_id : String) : List Relationship :=
  tmpl.expected_document_keys.filterMap (fun doc_key =>
    match alookup doc_key doc_key_map with
    | Option.none => Option.none
    | Option.some doc_id =>
        if doc_id.isEmpty then Option.none
        else Option.some
          { from_type := "document", from_id := doc_id,
            relation := RelationshipType.expected_doc_for_condition,
            to_type := "condition", to_id := cond_id,
            transaction_id := txn_id })

/-- The per-template loop of _create_standard_conditions (engine.py lines
265-291): create and save each condition, and collect the expected-document
edges when a truthy key map is present. -/
def createCondsLoop (cfg : EngineConfig) (txn_id : String)
    (doc_key_map : Option (List (String × String))) (st : EngineState) :
    List ConditionTemplate →
    List String × List Relationship × EngineState × List Event
  | [] => ([], [], st, [])
  | tmpl :: rest =>
      let (cid, st1) := freshId st
      let cond : ConditionPrecedent :=
        { id := cid, section_reference := tmpl.section_reference,
          title := tmpl.title, description := tmpl.description,
          category := tmpl.category, status := ConditionStatus.pending,
          created_at := cfg.now, updated_at := cfg.now }
      let st2 := { st1 with store := st1.store.save_condition cond }
      let rels := match doc_key_map with
        | Option.some m =>
            if m.isEmpty then [] else expectedEdges m tmpl cid txn_id
        | Option.none => []
      let r := createCondsLoop cfg txn_id doc_key_map st2 rest
      (cid :: r.1, rels ++ r.2.1, r.2.2.1, Event.save_condition cid :: r.2.2.2)

/-- engine.py TransactionEngine._create_standard_conditions (lines 250-299):
run the template loop, set condition_ids on the transaction, save it, and
bulk-add the collected relationship edges when any were built. -/
def create_standard_conditions (cfg : EngineConfig) (st : EngineState)
    (txn : Transaction) (doc_key_map : Option (List (String × String))) :
    List String × Transaction × EngineState × List Event :=
  let r := createCondsLoop cfg txn.id doc_key_map st cfg.ontology.condition_templates
  let txn2 := { txn with condition_ids := r.1 }
  let st2 := { r.2.2.1 with store := r.2.2.1.store.save_transaction txn2 }
  if r.2.1.isEmpty then
    (r.1, txn2, st2, r.2.2.2 ++ [Event.save_transaction txn2.id])
  else
    (r.1, txn2,
     { st2 with relationships := st2.relationships ++ r.2.1 },
     r.2.2.2 ++ [Event.save_transaction txn2.id,
                 Event.add_relationships r.2.1])

/-- engine.py TransactionEngine.create_transaction (lines 169-216): build and
save the Transaction, log the creation, then optionally create the standard
documents and the standard conditions, and return the stored transaction.
The two boolean flags are the create_standard_documents and
create_standard_conditions keyword arguments. -/
def create_transaction (cfg : EngineConfig) (st : EngineState)
    (name : String) (transaction_type : TransactionType)
    (facility_amount : PyFloat) (closing_date : Option PyDate)
    (create_docs : Bool) (create_conds : Bool) :
    Option Transaction × EngineState × List Event :=
  let fr := freshId st
  let txn : Transaction :=
    { id := fr.1, name := name, transaction_type := transaction_type,
      facility_amount := facility_amount, closing_date := closing_date,
      created_at := cfg.now, updated_at := cfg.now }
  let st2 := { fr.2 with store := fr.2.store.save_transaction txn }
  let changes : List (String × PyValue) :=
    [("name", PyValue.str name),
     ("facility_amount", PyValue.float facility_amount),
     ("closing_date", match closing_date with
        | Option.some d => PyValue.str d.iso
        | Option.none => PyValue.none)]
  let lr := logAction cfg st2 "CREATE" "transaction" txn.id changes
  let dr :
      Option (List (String × String)) × Transaction × EngineState × List Event :=
    if create_docs then
      let r := create_standard_documents cfg lr.1 txn
      (Option.some r.1, r.2.1, r.2.2.1, r.2.2.2)
    else (Option.none, txn, lr.1, [])
  let cr : EngineState × List Event :=
    if create_conds then
      let r := create_standard_conditions cfg dr.2.2.1 dr.2.1 dr.1
      (r.2.2.1, r.2.2.2)
    else (dr.2.2.1, [])
  (cr.1.store.get_transaction txn.id, cr.1,
   Event.save_transaction txn.id :: (lr.2 ++ dr.2.2.2 ++ cr.2))

/-! ## Party and document management (engine.py lines 306-425) -/

/-- engine.py TransactionEngine.add_party (lines 306-341): fail when the
transaction is unknown; otherwise save the new Party, extend party_ids, set
borrower_id and agent_id when the matching role is present and the field is
still falsy, and save the transaction. -/
def add_party (cfg : EngineConfig) (st : EngineState) (txn_id : String)
    (name : String) (roles : List PartyRole) (short_name : String := "")
    (jurisdiction : String := "") (entity_type : String := "") :
    Except String (Party × EngineState × List Event) :=
  match st.store.get_transaction txn_id with
  | Option.none => Except.error ("Transaction " ++ txn_id ++ " not found")
  | Option.some txn =>
      let (pid, st1) := freshId st
      let party : Party :=
        { id := pid, name := name,
          short_name := if short_name.isEmpty then name else short_name,
          roles := roles, jurisdiction := jurisdiction,
          entity_type := entity_type,
          created_at := cfg.now, updated_at := cfg.now }
      let st2 := { st1 with store := st1.store.save_party party }
      let txn2 :=
        if txn.party_ids.contains party.id then txn
        else { txn with party_ids := txn.party_ids ++ [party.id] }
      let txn3 :=
        if roles.contains PartyRole.borrower && !pyTruthy txn2.borrower_id
        then { txn2 with borrower_id := Option.some party.id } else txn2
      let txn4 :=
        if roles.contains PartyRole.administrative_agent && !pyTruthy txn3.agent_id
        then { txn3 with agent_id := Option.some party.id } else txn3
      let st3 := { st2 with store := st2.store.save_transaction txn4 }
      Except.ok (party, st3,
        [Event.save_party party.id, Event.save_transaction txn4.id])

/-- engine.py TransactionEngine.add_document (lines 347-373): fail when the
transaction is unknown; otherwise save the new Document (due date defaulting
to the transaction closing date) and append its id to document_ids, saving
the transaction only when the id was new. -/
def add_document (cfg : EngineConfig) (st : EngineState) (txn_id : String)
    (document_type : DocumentType) (title : String)
    (responsible_party_id : Option String := Option.none)
    (due_date : Option PyDate := Option.none) :
    Except String (Document × EngineState × List Event) :=
  match st.store.get_transaction txn_id with
  | Option.none => Except.error ("Transaction " ++ txn_id ++ " not found")
  | Option.some txn =>
      let (did, st1) := freshId st
      let doc : Document :=
        { id := did, document_type := document_type, title := title,
          responsible_party_id := responsible_party_id,
          due_date := match due_date with
            | Option.some d => Option.some d
            | Option.none => txn.closing_date,
          created_at := cfg.now, updated_at := cfg.now }
      let st2 := { st1 with store := st1.store.save_document doc }
      if txn.document_ids.contains doc.id then
        Except.ok (doc, st2, [Event.save_document doc.id])
      else
        let txn2 := { txn with document_ids := txn.document_ids ++ [doc.id] }
        let st3 := { st2 with store := st2.store.save_transaction txn2 }
        Except.ok (doc, st3,
          [Event.save_document doc.id, Event.save_transaction txn2.id])

/-- engine.py TransactionEngine.update_document_status (lines 375-407): fail
when the document is unknown; otherwise set the status (recording the old
status value first), overwrite notes only when the notes argument is truthy,
auto-set received_date on FINAL and execution_date on EXECUTED, save, and
log an UPDATE with field, old_value, new_value and title. -/
def update_document_status (cfg : EngineConfig) (st : EngineState)
    (doc_id : String) (status : DocumentStatus) (notes : String := "") :
    Except String (Document × EngineState × List Event) :=
  match st.store.get_document doc_id with
  | Option.none => Except.error ("Document " ++ doc_id ++ " not found")
  | Option.some doc =>
      let old_status := doc.status.value
      let doc1 := { doc with status := status }
      let doc2 := if notes.isEmpty then doc1 else { doc1 with notes := notes }
      let doc3 :=
        if status = DocumentStatus.final then
          { doc2 with received_date := Option.some cfg.today }
        else if status = DocumentStatus.executed then
          { doc2 with execution_date := Option.some cfg.today }
        else doc2
      let st1 := { st with store := st.store.save_document doc3 }
      let changes : List (String × PyValue) :=
        [("field", PyValue.str "status"),
         ("old_value", PyValue.str old_status),
         ("new_value", PyValue.str status.value),
         ("title", PyValue.str doc3.title)]
      let (st2, logEvs) := logAction cfg st1 "UPDATE" "document" doc_id changes
      Except.ok (doc3, st2, Event.save_document doc_id :: logEvs)

/-- engine.py TransactionEngine.link_document_to_condition (lines 409-425):
fail when either entity is unknown; otherwise record the link on each side,
saving each entity only when its list actually grew. -/
def link_document_to_condition (_cfg : EngineConfig) (st : EngineState)
    (doc_id cond_id : String) :
    Except String (EngineState × List Event) :=
  match st.store.get_document doc_id, st.store.get_condition cond_id with
  | Option.none, _ => Except.error ("Document " ++ doc_id ++ " not found")
  | Option.some _, Option.none =>
      Except.error ("Condition " ++ cond_id ++ " not found")
  | Option.some doc, Option.some cond =>
      let (st1, evs1) :=
        if doc.satisfies_condition_ids.contains cond_id then (st, ([] : List Event))
        else
          let doc2 :=
            { doc with satisfies_condition_ids :=
                doc.satisfies_condition_ids ++ [cond_id] }
          ({ st with store := st.store.save_document doc2 },
           [Event.save_document doc_id])
      let (st2, evs2) :=
        if cond.satisfied_by_document_ids.contains doc_id then (st1, ([] : List Event))
        else
          let cond2 :=
            { cond with satisfied_by_document_ids :=
                cond.satisfied_by_document_ids ++ [doc_id] }
          ({ st1 with store := st1.store.save_condition cond2 },
           [Event.save_condition cond_id])
      Except.ok (st2, evs1 ++ evs2)

/-! ## Condition management (engine.py lines 431-488) -/

/-- engine.py TransactionEngine.update_condition_status (lines 431-457): fail
when the condition is unknown; otherwise set the status (recording the old
status value first), overwrite notes only when the notes argument is truthy,
save, and log an UPDATE with field, old_value, new_value and title. -/
def update_condition_status (cfg : EngineConfig) (st : EngineState)
    (cond_id : String) (status : ConditionStatus) (notes : String := "") :
    Except String (ConditionPrecedent × EngineState × List Event) :=
  match st.store.get_condition cond_id with
  | Option.none => Except.error ("Condition " ++ cond_id ++ " not found")
  | Option.some cond =>
      let old_status := cond.status.value
      let cond1 := { cond with status := status }
      let cond2 := if notes.isEmpty then cond1 else { cond1 with notes := notes }
      let st1 := { st with store := st.store.save_condition cond2 }
      let changes : List (String × PyValue) :=
        [("field", PyValue.str "status"),
         ("old_value", PyValue.str old_status),
         ("new_value", PyValue.str status.value),
         ("title", PyValue.str cond2.title)]
      let (st2, logEvs) := logAction cfg st1 "UPDATE" "condition" cond_id changes
      Except.ok (cond2, st2, Event.save_condition cond_id :: logEvs)

/-- The loop over doc_ids in satisfy_condition (engine.py lines 465-467),
propagating the first link failure. -/
def linkLoop (cfg : EngineConfig) (st : EngineState) (cond_id : String) :
    List String → Except String (EngineState × List Event)
  | [] => Except.ok (st, [])
  | doc_id :: rest =>
      match link_document_to_condition cfg st doc_id cond_id with
      | Except.error e => Except.error e
      | Except.ok (st1, evs) =>
          match linkLoop cfg st1 cond_id rest with
          | Except.error e => Except.error e
          | Except.ok (st2, evs2) => Except.ok (st2, evs ++ evs2)

/-- engine.py TransactionEngine.satisfy_condition (lines 459-470): fail when
the condition is unknown; otherwise link the given documents, then mark the
condition SATISFIED and save it.  The store hands out values, so the final
save writes the condition fetched before the links, exactly as the Python
code does when get_condition returns a fresh object. -/
def satisfy_condition (cfg : EngineConfig) (st : EngineState)
    (cond_id : String) (doc_ids : List String := []) :
    Except String (EngineState × List Event) :=
  match st.store.get_condition cond_id with
  | Option.none => Except.error ("Condition " ++ cond_id ++ " not found")
  | Option.some cond =>
      match (if doc_ids.isEmpty then Except.ok (st, ([] : List Event))
             else linkLoop cfg st cond_id doc_ids) with
      | Except.error e => Except.error e
      | Except.ok (st1, evs) =>
          let cond2 := { cond with status := ConditionStatus.satisfied }
          let st2 := { st1 with store := st1.store.save_condition cond2 }
          Except.ok (st2, evs ++ [Event.save_condition cond2.id])

/-- engine.py TransactionEngine.waive_condition (lines 472-488): fail when
the condition is unknown; otherwise mark it WAIVED, set waived_date to the
given date or today, set waiver_document_id only when one was given, and
save. -/
def waive_condition (cfg : EngineConfig) (st : EngineState)
    (cond_id : String) (waiver_date : Option PyDate := Option.none)
    (waiver_document_id : Option String := Option.none) :
    Except String (EngineState × List Event) :=
  match st.store.get_condition cond_id with
  | Option.none => Except.error ("Condition " ++ cond_id ++ " not found")
  | Option.some cond =>
      let cond2 :=
        { cond with
          status := ConditionStatus.waived
          waived_date := match waiver_date with
            | Option.some d => Option.some d
            | Option.none => Option.some cfg.today }
      let cond3 :=
        if pyTruthy waiver_document_id then
          { cond2 with waiver_document_id := waiver_document_id }
        else cond2
      let st1 := { st with store := st.store.save_condition cond3 }
      Except.ok (st1, [Event.save_condition cond3.id])

/-! ## Checklist generation (engine.py lines 494-607) -/

/-- One formatted checklist line (the dict built by _format_checklist_item). -/
structure ChecklistEntry where
  number : Nat
  document_id : String
  title : String
  status : String
  responsible_party : String
  due_date : String
  notes : String
deriving DecidableEq, Repr

/-- One checklist section dict; section_label carries the "section" key. -/
structure ChecklistSection where
  section_label : String
  title : String
  items : List ChecklistEntry
deriving DecidableEq, Repr

/-- engine.py TransactionEngine._format_checklist_item (lines 591-607). -/
def format_checklist_item (num : Nat) (doc : Document)
    (parties : List (String × Party)) : ChecklistEntry :=
  let responsible :=
    if pyTruthy doc.responsible_party_id then
      match alookup (doc.responsible_party_id.getD "") parties with
      | Option.some p => p.short_name
      | Option.none => ""
    else ""
  { number := num, document_id := doc.id, title := doc.title,
    status := doc.status.value, responsible_party := responsible,
    due_date := match doc.due_date with
      | Option.some d => d.iso
      | Option.none => "",
    notes := doc.notes }

/-- Number a run of documents as checklist items starting at the given
counter, returning the items and the next counter value. -/
def numberItems (parties : List (String × Party)) (start : Nat) :
    List Document → List ChecklistEntry × Nat
  | [] => ([], start)
  | d :: rest =>
      let (items, n) := numberItems parties (start + 1) rest
      (format_checklist_item start d parties :: items, n)

/-- engine.py TransactionEngine.generate_checklist (lines 494-589): fail when
the transaction is unknown; otherwise build the five fixed sections, pulling
documents per type value in document order with one shared running item
number.  The Python dict grouping doc_by_type followed by per-type reads is
modelled by the order-preserving filter docsOf. -/
def generate_checklist (_cfg : EngineConfig) (st : EngineState)
    (txn_id : String) : Except String (List ChecklistSection) :=
  match st.store.get_transaction txn_id with
  | Option.none => Except.error ("Transaction " ++ txn_id ++ " not found")
  | Option.some _ =>
      let documents := st.store.list_documents txn_id
      let parties := (st.store.list_parties txn_id).map (fun p => (p.id, p))
      let docsOf := fun (t : String) =>
        documents.filter (fun d => d.document_type.value = t)
      let (items1, n1) :=
        numberItems parties 1 (docsOf "credit_agreement" ++ docsOf "amendment")
      let corp_types := ["officers_certificate", "secretary_certificate",
        "good_standing", "charter_documents", "bylaws", "resolutions",
        "incumbency_certificate"]
      let (items2, n2) := numberItems parties n1 (corp_types.flatMap docsOf)
      let security_types := ["security_agreement", "pledge_agreement",
        "guaranty", "perfection_certificate", "ucc_financing_statement",
        "ip_security_agreement"]
      let (items3, n3) := numberItems parties n2 (security_types.flatMap docsOf)
      let (items4, n4) := numberItems parties n3 (docsOf "legal_opinion")
      let other_types := ["solvency_certificate", "closing_certificate",
        "compliance_certificate", "financial_statements", "fee_letter",
        "side_letter"]
      let (items5, _) := numberItems parties n4 (other_types.flatMap docsOf)
      Except.ok
        [{ section_label := "1", title := "CREDIT AGREEMENT AND RELATED DOCUMENTS",
           items := items1 },
         { section_label := "2", title := "CORPORATE DOCUMENTS", items := items2 },
         { section_label := "3", title := "SECURITY DOCUMENTS", items := items3 },
         { section_label := "4", title := "LEGAL OPINIONS", items := items4 },
         { section_label := "5", title := "CERTIFICATES AND OTHER DOCUMENTS",
           items := items5 }]

/-! ## Status reporting (engine.py lines 613-673) -/

/-- One outstanding-item dict in the status summary. -/
structure OutstandingItem where
  id : String
  title : String
  status : String
deriving DecidableEq, Repr

/-- The status summary dict returned by get_status_summary.  The readiness
percentage is computed exactly on rationals; the Python float division and
round(x, 1) are not modelled (no claim depends on the rounding). -/
structure StatusSummary where
  txn_id : String
  txn_name : String
  facility_amount : PyFloat
  closing_date : Option String
  is_closed : Bool
  doc_total : Nat
  doc_counts : List (String × Nat)
  cond_total : Nat
  cond_counts : List (String × Nat)
  readiness_percentage : Rat
  ready_items : Nat
  total_items : Nat
  outstanding_documents : List OutstandingItem
  outstanding_conditions : List OutstandingItem
deriving DecidableEq, Repr

/-- engine.py TransactionEngine.get_status_summary (lines 613-673): fail when
the transaction is unknown; otherwise compute document and condition
statistics, readiness and outstanding items. -/
def get_status_summary (_cfg : EngineConfig) (st : EngineState)
    (txn_id : String) : Except String StatusSummary :=
  match st.store.get_transaction txn_id with
  | Option.none => Except.error ("Transaction " ++ txn_id ++ " not found")
  | Option.some txn =>
      let documents := st.store.list_documents txn_id
      let conditions := st.store.list_conditions txn_id
      let doc_counts := DocumentStatus.all.filterMap (fun s =>
        let count := documents.countP (fun d => d.status == s)
        if count > 0 then Option.some (s.value, count) else Option.none)
      let cond_counts := ConditionStatus.all.filterMap (fun s =>
        let count := conditions.countP (fun c => c.status == s)
        if count > 0 then Option.some (s.value, count) else Option.none)
      let docReady := fun (d : Document) =>
        d.status == DocumentStatus.final || d.status == DocumentStatus.executed
      let condReady := fun (c : ConditionPrecedent) =>
        c.status == ConditionStatus.satisfied ||
        c.status == ConditionStatus.waived ||
        c.status == ConditionStatus.not_applicable
      let docs_ready := documents.countP docReady
      let conds_ready := conditions.countP condReady
      let total_items := documents.length + conditions.length
      let ready_items := docs_ready + conds_ready
      let readiness_pct : Rat :=
        if total_items > 0 then (ready_items : Rat) / (total_items : Rat) * 100
        else 0
      let outstanding_docs := (documents.filter (fun d => !docReady d)).map
        (fun d => OutstandingItem.mk d.id d.title d.status.value)
      let outstanding_conds := (conditions.filter (fun c => !condReady c)).map
        (fun c => OutstandingItem.mk c.id c.title c.status.value)
      Except.ok
        { txn_id := txn.id, txn_name := txn.name,
          facility_amount := txn.facility_amount,
          closing_date := match txn.closing_date with
            | Option.some d => Option.some d.iso
            | Option.none => Option.none,
          is_closed := txn.is_closed,
          doc_total := documents.length, doc_counts := doc_counts,
          cond_total := conditions.length, cond_counts := cond_counts,
          readiness_percentage := readiness_pct,
          ready_items := ready_items, total_items := total_items,
          outstanding_documents := outstanding_docs,
          outstanding_conditions := outstanding_conds }

/-! ## Snapshots, archiving and defined terms (engine.py lines 751-871) -/

/-- The return value of create_closing_snapshot: a plain error dict when
versioning is disabled, otherwise the manifest. -/
inductive SnapshotResult where
  | error_dict (msg : String)
  | manifest (m : SnapshotManifest)
deriving DecidableEq, Repr

/-- engine.py TransactionEngine.create_closing_snapshot (lines 751-780):
return an error dict when versioning is disabled; fail when the transaction
is unknown; otherwise create a snapshot named from the sanitized transaction
name and log a SNAPSHOT action carrying the manifest id. -/
def create_closing_snapshot (cfg : EngineConfig) (st : EngineState)
    (txn_id : String) :
    Except String (SnapshotResult × EngineState × List Event) :=
  if !cfg.versioning_enabled then
    Except.ok (SnapshotResult.error_dict "Versioning not enabled", st, [])
  else
    match st.store.get_transaction txn_id with
    | Option.none => Except.error ("Transaction " ++ txn_id ++ " not found")
    | Option.some txn =>
        let safe_name :=
          ((((txn.name.replace " " "_").replace "$" "").replace "/" "-")).take 30
        let snapshot_name := "closing_" ++ safe_name
        let manifest := cfg.snapshot_create snapshot_name
          ("Closing snapshot for " ++ txn.name)
        let changes : List (String × PyValue) :=
          [("snapshot_id", PyValue.str manifest.id),
           ("snapshot_name", PyValue.str snapshot_name)]
        let (st1, evs) := logAction cfg st "SNAPSHOT" "transaction" txn_id changes
        Except.ok (SnapshotResult.manifest manifest, st1, evs)

/-- The return value of archive_generated_document. -/
inductive ArchiveResult where
  | error_dict (msg : String)
  | entry (e : ArchiveEntry)
deriving DecidableEq, Repr

/-- engine.py TransactionEngine.archive_generated_document (lines 802-827):
return an error dict when versioning is disabled; otherwise look the
transaction up, fall back to the name Unknown when it is absent, archive the
file through the archive backend and log an ARCHIVE action.  Backend
failures on the source file are outside this entity-store model. -/
def archive_generated_document (cfg : EngineConfig) (st : EngineState)
    (filepath doc_type txn_id : String) :
    Except String (ArchiveResult × EngineState × List Event) :=
  if !cfg.versioning_enabled then
    Except.ok (ArchiveResult.error_dict "Versioning not enabled", st, [])
  else
    let txn? := st.store.get_transaction txn_id
    let metadata : List (String × PyValue) :=
      [("transaction_name", PyValue.str (match txn? with
          | Option.some t => t.name
          | Option.none => "Unknown")),
       ("generated_at", PyValue.str cfg.now.iso)]
    let entry := cfg.archive_document filepath doc_type txn_id metadata
    let changes : List (String × PyValue) :=
      [("doc_type", PyValue.str doc_type),
       ("transaction_id", PyValue.str txn_id),
       ("original_name", PyValue.str entry.original_name)]
    let (st1, evs) :=
      logAction cfg st "ARCHIVE" "document" (entry.content_hash.take 16) changes
    Except.ok (ArchiveResult.entry entry, st1, evs)

/-- The source-string coercion inside parse_definitions (engine.py lines
847-851): try TermSource(source), fall back to the member OTHER on
ValueError. -/
def parseDefinitionsSource (source : String) : TermSource :=
  match termSourceFromValue source with
  | Option.some e => e
  | Option.none => TermSource.other

/-- engine.py TransactionEngine.parse_definitions (lines 833-864): a no-op
returning the empty list when the terms system is disabled; otherwise coerce
the source string to a TermSource member, run the external parser, save the
terms and log a PARSE action. -/
def parse_definitions (cfg : EngineConfig) (st : EngineState)
    (text : String) (source : String := "credit_agreement") :
    List String × EngineState × List Event :=
  if !cfg.terms_enabled then ([], st, [])
  else
    let source_enum := parseDefinitionsSource source
    let terms := cfg.terms_parse text source_enum
    let changes : List (String × PyValue) :=
      [("terms_count", PyValue.int (terms.length : Int)),
       ("source", PyValue.str source)]
    let (st1, logEvs) := logAction cfg st "PARSE" "defined_terms" source changes
    (terms, st1, Event.save_terms terms :: logEvs)

/-! ## Trace observations -/

/-- Number of audit-log appends in a trace. -/
def auditAppendCount (evs : List Event) : Nat :=
  evs.countP fun e => match e with
    | Event.audit_append _ => true
    | _ => false

/-- Number of version-control commits in a trace. -/
def vcCommitCount (evs : List Event) : Nat :=
  evs.countP fun e => match e with
    | Event.vc_commit _ _ _ _ => true
    | _ => false

/-- The trace of an Except-returning engine call whose result is a triple,
when the call succeeded. -/
def okTrace : Except String (α × EngineState × List Event) → Option (List Event)
  | Except.ok (_, _, evs) => Option.some evs
  | Except.error _ => Option.none

/-- The resulting engine state of an Except-returning engine call whose
result is a triple, when the call succeeded. -/
def okState : Except String (α × EngineState × List Event) → Option EngineState
  | Except.ok (_, st, _) => Option.some st
  | Except.error _ => Option.none

/-! ## Closed forms of the id flow inside create_transaction -/

/-- Closed form of the key-to-id map built by createDocsLoop when the id
counter starts at n: the i-th template key maps to the i-th fresh id. -/
def docKeyIds : List (String × DocumentTemplate) → Nat → List (String × String)
  | [], _ => []
  | (key, _) :: rest, n => (key, mkId n) :: docKeyIds rest (n + 1)

/-- Closed form of the condition ids produced by createCondsLoop when the id
counter starts at n. -/
def condIdsFrom : List ConditionTemplate → Nat → List String
  | [], _ => []
  | _ :: rest, n => mkId n :: condIdsFrom rest (n + 1)

/-- Closed form of the relationship edges collected by createCondsLoop for a
non-empty key map when the id counter starts at n. -/
def condEdgesFrom (m : List (String × String)) (txn_id : String) :
    List ConditionTemplate → Nat → List Relationship
  | [], _ => []
  | tmpl :: rest, n =>
      expectedEdges m tmpl (mkId n) txn_id ++ condEdgesFrom m txn_id rest (n + 1)

/-! ## Concrete fixtures for witnesses and counterexamples -/

/-- A concrete condition template expecting one key that resolves against the
demo document templates and one that does not. -/
def demoCondTemplate : ConditionTemplate where
  section_reference := "4.01(a)"
  title := "Executed Credit Agreement"
  description := "Delivery of the executed credit agreement"
  category := "Documents"
  expected_document_keys := ["credit_agreement", "board_resolutions"]

/-- A small concrete ontology configuration: two document templates and one
condition template expecting one key that resolves and one that does not. -/
def demoOntology : CreditAgreementOntology where
  name := "credit_agreement_v1"
  document_templates :=
    [("credit_agreement",
      { key := "credit_agreement",
        document_type := DocumentType.credit_agreement,
        default_title := "Credit Agreement" }),
     ("legal_opinion",
      { key := "legal_opinion",
        document_type := DocumentType.legal_opinion,
        default_title := "Legal Opinion",
        default_due_date_field := Option.none })]
  condition_templates := [demoCondTemplate]

/-- A concrete engine configuration with versioning enabled and a healthy
version-control backend. -/
def demoCfg : EngineConfig where
  versioning_enabled := true
  vc_commit := fun _ _ _ => Option.some "commit_a"
  snapshot_create := fun _ _ => { id := "snap_1" }
  archive_document := fun _ _ _ _ =>
    { content_hash := "deadbeef", original_name := "generated.docx" }
  ontology := demoOntology
  today := { iso := "2026-10-12" }
  now := { iso := "2026-10-12T09:00:00" }
  terms_enabled := true

/-- demoCfg with the version-control backend unavailable. -/
def demoCfgNullVC : EngineConfig :=
  { demoCfg with vc_commit := fun _ _ _ => Option.none }

/-- demoCfg with versioning disabled. -/
def demoCfgNoVer : EngineConfig :=
  { demoCfg with versioning_enabled := false }

/-- demoCfg whose archive backend echoes the transaction_name metadata into
the returned entry, making the metadata observable. -/
def probeArchiveCfg : EngineConfig :=
  { demoCfg with archive_document := fun _ _ _ metadata =>
      { content_hash := "deadbeef",
        original_name := match alookup "transaction_name" metadata with
          | Option.some (PyValue.str s) => s
          | _ => "?" } }

def demoTxn : Transaction where
  id := "t1"
  name := "XYZ Corp Facility"
  facility_amount := { lit := "100000000.0" }
  closing_date := Option.some { iso := "2026-12-01" }
  created_at := { iso := "2026-10-01T00:00:00" }
  updated_at := { iso := "2026-10-01T00:00:00" }

def demoDoc : Document where
  id := "d1"
  document_type := DocumentType.credit_agreement
  title := "Credit Agreement"
  status := DocumentStatus.drafting
  created_at := { iso := "2026-10-01T00:00:00" }
  updated_at := { iso := "2026-10-01T00:00:00" }

def demoCond : ConditionPrecedent where
  id := "c1"
  section_reference := "4.01(a)"
  title := "Executed Credit Agreement"
  status := ConditionStatus.pending
  created_at := { iso := "2026-10-01T00:00:00" }
  updated_at := { iso := "2026-10-01T00:00:00" }

/-- A concrete engine state holding one transaction, one document and one
condition. -/
def demoState : EngineState where
  store :=
    { transactions := [("t1", { demoTxn with document_ids := ["d1"], condition_ids := ["c1"] })]
      documents := [("d1", demoDoc)]
      parties := []
      conditions := [("c1", demoCond)] }

/-! ## Association-list and id-supply lemmas -/

theorem alookup_aupsert_self (k : String) (v : α) (l : List (String × α)) :
    alookup k (aupsert k v l) = Option.some v := by
  induction l with
  | nil => simp [aupsert, alookup]
  | cons h t ih =>
      obtain ⟨k₂, v₂⟩ := h
      by_cases hk : k₂ = k
      · simp [aupsert, hk, alookup]
      · simp [aupsert, hk, alookup, ih]

theorem alookup_aupsert_ne (k j : String) (v : α) (l : List (String × α))
    (h : j ≠ k) : alookup j (aupsert k v l) = alookup j l := by
  have hkj : k ≠ j := Ne.symm h
  induction l with
  | nil => simp [aupsert, alookup, hkj]
  | cons hd t ih =>
      obtain ⟨k₂, v₂⟩ := hd
      by_cases hk : k₂ = k
      · subst hk
        simp [aupsert, alookup, hkj]
      · simp [aupsert, hk, alookup, ih]

theorem alookup_eq_some_mem {k : String} {v : α} {l : List (String × α)}
    (h : alookup k l = Option.some v) : (k, v) ∈ l := by
  induction l with
  | nil => simp [alookup] at h
  | cons hd t ih =>
      obtain ⟨k₂, v₂⟩ := hd
      by_cases hk : k₂ = k
      · subst hk
        simp [alookup] at h
        simp [h]
      · simp [alookup, hk] at h
        exact List.mem_cons_of_mem _ (ih h)

/-- In an association list with pairwise distinct values, a shared value
forces a shared key. -/
theorem assoc_value_inj {l : List (String × α)}
    (hnd : (l.map Prod.snd).Nodup) {k₁ k₂ : String} {v : α}
    (h₁ : (k₁, v) ∈ l) (h₂ : (k₂, v) ∈ l) : k₁ = k₂ := by
  induction l with
  | nil => simp at h₁
  | cons hd t ih =>
      obtain ⟨k₀, v₀⟩ := hd
      simp only [List.map_cons, List.nodup_cons] at hnd
      rcases List.mem_cons.mp h₁ with h₁' | h₁' <;>
        rcases List.mem_cons.mp h₂ with h₂' | h₂'
      · rw [Prod.mk.injEq] at h₁' h₂'
        rw [h₁'.1, h₂'.1]
      · exfalso
        rw [Prod.mk.injEq] at h₁'
        exact hnd.1 (h₁'.2 ▸ List.mem_map_of_mem Prod.snd h₂')
      · exfalso
        rw [Prod.mk.injEq] at h₂'
        exact hnd.1 (h₂'.2 ▸ List.mem_map_of_mem Prod.snd h₁')
      · exact ih hnd.2 h₁' h₂'

theorem mkId_length (n : Nat) : (mkId n).length = 3 + n := by
  simp [mkId, String.length]
  omega

theorem mkId_inj {m n : Nat} (h : mkId m = mkId n) : m = n := by
  have := congrArg String.length h
  rw [mkId_length, mkId_length] at this
  omega

theorem mkId_isEmpty (n : Nat) : (mkId n).isEmpty = false := by
  have h := mkId_length n
  rw [Bool.eq_false_iff]
  intro hemp
  rw [String.isEmpty_iff] at hemp
  have h0 : ("" : String).length = 0 := rfl
  rw [hemp, h0] at h
  omega

/-! ## logAction lemmas -/

theorem logAction_ver {cfg : EngineConfig} (hver : cfg.versioning_enabled = true)
    (st : EngineState) (a t i : String) (c : List (String × PyValue)) :
    logAction cfg st a t i c =
      ({ st with audit_log := st.audit_log ++
          [{ action := a, entity_type := t, entity_id := i, changes := c,
             git_commit := cfg.vc_commit a t i }] },
       [Event.vc_commit a t i (cfg.vc_commit a t i),
        Event.audit_append
          { action := a, entity_type := t, entity_id := i, changes := c,
            git_commit := cfg.vc_commit a t i }]) := by
  simp [logAction, hver]

theorem logAction_nover {cfg : EngineConfig} (hver : cfg.versioning_enabled = false)
    (st : EngineState) (a t i : String) (c : List (String × PyValue)) :
    logAction cfg st a t i c = (st, []) := by
  simp [logAction, hver]

theorem logAction_fst_store (cfg : EngineConfig) (st : EngineState)
    (a t i : String) (c : List (String × PyValue)) :
    (logAction cfg st a t i c).1.store = st.store := by
  unfold logAction
  split <;> rfl

theorem logAction_fst_next_id (cfg : EngineConfig) (st : EngineState)
    (a t i : String) (c : List (String × PyValue)) :
    (logAction cfg st a t i c).1.next_id = st.next_id := by
  unfold logAction
  split <;> rfl

theorem logAction_fst_relationships (cfg : EngineConfig) (st : EngineState)
    (a t i : String) (c : List (String × PyValue)) :
    (logAction cfg st a t i c).1.relationships = st.relationships := by
  unfold logAction
  split <;> rfl

/-! ## Mirrors of the status-update bodies, verified by the shape lemmas -/

/-- The document value produced by update_document_status on a fetched
document. -/
def updDocPure (today : PyDate) (doc : Document) (status : DocumentStatus)
    (notes : String) : Document :=
  let doc1 := { doc with status := status }
  let doc2 := if notes.isEmpty then doc1 else { doc1 with notes := notes }
  if status = DocumentStatus.final then
    { doc2 with received_date := Option.some today }
  else if status = DocumentStatus.executed then
    { doc2 with execution_date := Option.some today }
  else doc2

/-- The audit record produced by update_document_status when versioning is
enabled. -/
def updDocRecord (cfg : EngineConfig) (doc : Document) (doc_id : String)
    (status : DocumentStatus) (notes : String) : AuditRecord where
  action := "UPDATE"
  entity_type := "document"
  entity_id := doc_id
  changes :=
    [("field", PyValue.str "status"),
     ("old_value", PyValue.str doc.status.value),
     ("new_value", PyValue.str status.value),
     ("title", PyValue.str (updDocPure cfg.today doc status notes).title)]
  git_commit := cfg.vc_commit "UPDATE" "document" doc_id

/-- The condition value produced by update_condition_status on a fetched
condition. -/
def updCondPure (cond : ConditionPrecedent) (status : ConditionStatus)
    (notes : String) : ConditionPrecedent :=
  let cond1 := { cond with status := status }
  if notes.isEmpty then cond1 else { cond1 with notes := notes }

/-- The audit record produced by update_condition_status when versioning is
enabled. -/
def updCondRecord (cfg : EngineConfig) (cond : ConditionPrecedent)
    (cond_id : String) (status : ConditionStatus) (notes : String) :
    AuditRecord where
  action := "UPDATE"
  entity_type := "condition"
  entity_id := cond_id
  changes :=
    [("field", PyValue.str "status"),
     ("old_value", PyValue.str cond.status.value),
     ("new_value", PyValue.str status.value),
     ("title", PyValue.str (updCondPure cond status notes).title)]
  git_commit := cfg.vc_commit "UPDATE" "condition" cond_id

theorem update_document_status_ver (cfg : EngineConfig) (st : EngineState)
    (doc_id : String) (status : DocumentStatus) (notes : String)
    (doc : Document) (hdoc : st.store.get_document doc_id = Option.some doc)
    (hver : cfg.versioning_enabled = true) :
    update_document_status cfg st doc_id status notes =
      Except.ok (updDocPure cfg.today doc status notes,
        { st with
          store := st.store.save_document (updDocPure cfg.today doc status notes)
          audit_log := st.audit_log ++ [updDocRecord cfg doc doc_id status notes] },
        [Event.save_document doc_id,
         Event.vc_commit "UPDATE" "document" doc_id
           (cfg.vc_commit "UPDATE" "document" doc_id),
         Event.audit_append (updDocRecord cfg doc doc_id status notes)]) := by
  simp only [update_document_status, hdoc, logAction_ver hver,
    updDocPure, updDocRecord]

theorem update_document_status_nover (cfg : EngineConfig) (st : EngineState)
    (doc_id : String) (status : DocumentStatus) (notes : String)
    (doc : Document) (hdoc : st.store.get_document doc_id = Option.some doc)
    (hver : cfg.versioning_enabled = false) :
    update_document_status cfg st doc_id status notes =
      Except.ok (updDocPure cfg.today doc status notes,
        { st with
          store := st.store.save_document (updDocPure cfg.today doc status notes) },
        [Event.save_document doc_id]) := by
  simp only [update_document_status, hdoc, logAction_nover hver,
    updDocPure]

theorem update_condition_status_ver (cfg : EngineConfig) (st : EngineState)
    (cond_id : String) (status : ConditionStatus) (notes : String)
    (cond : ConditionPrecedent)
    (hcond : st.store.get_condition cond_id = Option.some cond)
    (hver : cfg.versioning_enabled = true) :
    update_condition_status cfg st cond_id status notes =
      Except.ok (updCondPure cond status notes,
        { st with
          store := st.store.save_condition (updCondPure cond status notes)
          audit_log := st.audit_log ++ [updCondRecord cfg cond cond_id status notes] },
        [Event.save_condition cond_id,
         Event.vc_commit "UPDATE" "condition" cond_id
           (cfg.vc_commit "UPDATE" "condition" cond_id),
         Event.audit_append (updCondRecord cfg cond cond_id status notes)]) := by
  simp only [update_condition_status, hcond, logAction_ver hver,
    updCondPure, updCondRecord]

theorem update_condition_status_nover (cfg : EngineConfig) (st : EngineState)
    (cond_id : String) (status : ConditionStatus) (notes : String)
    (cond : ConditionPrecedent)
    (hcond : st.store.get_condition cond_id = Option.some cond)
    (hver : cfg.versioning_enabled = false) :
    update_condition_status cfg st cond_id status notes =
      Except.ok (updCondPure cond status notes,
        { st with
          store := st.store.save_condition (updCondPure cond status notes) },
        [Event.save_condition cond_id]) := by
  simp only [update_condition_status, hcond, logAction_nover hver,
    updCondPure]

/-! ## Shape lemmas for the non-logging operations -/

/-- The party value built by add_party. -/
def newPartyPure (cfg : EngineConfig)
    (pid name short_name jurisdiction entity_type : String)
    (roles : List PartyRole) : Party where
  id := pid
  name := name
  short_name := if short_name.isEmpty then name else short_name
  roles := roles
  jurisdiction := jurisdiction
  entity_type := entity_type
  created_at := cfg.now
  updated_at := cfg.now

/-- The transaction value as rewritten by add_party. -/
def addPartyTxn (txn : Transaction) (pid : String) (roles : List PartyRole) :
    Transaction :=
  let txn2 :=
    if txn.party_ids.contains pid then txn
    else { txn with party_ids := txn.party_ids ++ [pid] }
  let txn3 :=
    if roles.contains PartyRole.borrower && !pyTruthy txn2.borrower_id
    then { txn2 with borrower_id := Option.some pid } else txn2
  if roles.contains PartyRole.administrative_agent && !pyTruthy txn3.agent_id
  then { txn3 with agent_id := Option.some pid } else txn3

theorem add_party_ok (cfg : EngineConfig) (st : EngineState)
    (txn_id name : String) (roles : List PartyRole)
    (sn jd et : String) (txn : Transaction)
    (htxn : st.store.get_transaction txn_id = Option.some txn) :
    add_party cfg st txn_id name roles sn jd et =
      Except.ok (newPartyPure cfg (mkId st.next_id) name sn jd et roles,
        { st with
          store := (st.store.save_party
              (newPartyPure cfg (mkId st.next_id) name sn jd et roles)).save_transaction
              (addPartyTxn txn (mkId st.next_id) roles)
          next_id := st.next_id + 1 },
        [Event.save_party (mkId st.next_id),
         Event.save_transaction (addPartyTxn txn (mkId st.next_id) roles).id]) := by
  simp only [add_party, htxn, freshId, newPartyPure, addPartyTxn]

/-- The document value built by add_document. -/
def newDocPure (cfg : EngineConfig) (did : String)
    (document_type : DocumentType) (title : String)
    (responsible_party_id : Option String) (due_date : Option PyDate)
    (txn : Transaction) : Document where
  id := did
  document_type := document_type
  title := title
  responsible_party_id := responsible_party_id
  due_date := match due_date with
    | Option.some d => Option.some d
    | Option.none => txn.closing_date
  created_at := cfg.now
  updated_at := cfg.now

theorem add_document_trace (cfg : EngineConfig) (st : EngineState)
    (txn_id : String) (dt : DocumentType) (title : String)
    (rp : Option String) (due : Option PyDate) (txn : Transaction)
    (htxn : st.store.get_transaction txn_id = Option.some txn) :
    ∃ d st' evs, add_document cfg st txn_id dt title rp due =
        Except.ok (d, st', evs) ∧
      auditAppendCount evs = 0 ∧ vcCommitCount evs = 0 ∧
      st'.audit_log = st.audit_log := by
  simp only [add_document, htxn, freshId]
  split
  · exact ⟨_, _, _, rfl, rfl, rfl, rfl⟩
  · exact ⟨_, _, _, rfl, rfl, rfl, rfl⟩

theorem auditAppendCount_append (l₁ l₂ : List Event) :
    auditAppendCount (l₁ ++ l₂) = auditAppendCount l₁ + auditAppendCount l₂ :=
  List.countP_append _ _ _

theorem vcCommitCount_append (l₁ l₂ : List Event) :
    vcCommitCount (l₁ ++ l₂) = vcCommitCount l₁ + vcCommitCount l₂ :=
  List.countP_append _ _ _

theorem link_trace (cfg : EngineConfig) (st : EngineState)
    (doc_id cond_id : String) (st' : EngineState) (evs : List Event)
    (h : link_document_to_condition cfg st doc_id cond_id =
      Except.ok (st', evs)) :
    auditAppendCount evs = 0 ∧ vcCommitCount evs = 0 ∧
      st'.audit_log = st.audit_log := by
  unfold link_document_to_condition at h
  split at h
  · cases h
  · cases h
  · split_ifs at h <;>
      (simp only [Except.ok.injEq, Prod.mk.injEq] at h
       obtain ⟨h1, h2⟩ := h
       subst h1
       subst h2
       exact ⟨rfl, rfl, rfl⟩)

theorem linkLoop_trace (cfg : EngineConfig) (cond_id : String) :
    ∀ (doc_ids : List String) (st st' : EngineState) (evs : List Event),
      linkLoop cfg st cond_id doc_ids = Except.ok (st', evs) →
      auditAppendCount evs = 0 ∧ vcCommitCount evs = 0 ∧
        st'.audit_log = st.audit_log := by
  intro doc_ids
  induction doc_ids with
  | nil =>
      intro st st' evs h
      simp only [linkLoop, Except.ok.injEq, Prod.mk.injEq] at h
      obtain ⟨h1, h2⟩ := h
      subst h1
      subst h2
      exact ⟨rfl, rfl, rfl⟩
  | cons d rest ih =>
      intro st st' evs h
      unfold linkLoop at h
      cases hlink : link_document_to_condition cfg st d cond_id with
      | error e =>
          simp only [hlink] at h
          exact Except.noConfusion h
      | ok r =>
          obtain ⟨st1, evs1⟩ := r
          simp only [hlink] at h
          cases hrest : linkLoop cfg st1 cond_id rest with
          | error e =>
              simp only [hrest] at h
              exact Except.noConfusion h
          | ok r2 =>
              obtain ⟨st2, evs2⟩ := r2
              simp only [hrest, Except.ok.injEq, Prod.mk.injEq] at h
              obtain ⟨h1, h2⟩ := h
              subst h1
              subst h2
              obtain ⟨a1, v1, l1⟩ := link_trace cfg st d cond_id st1 evs1 hlink
              obtain ⟨a2, v2, l2⟩ := ih st1 st2 evs2 hrest
              refine ⟨?_, ?_, ?_⟩
              · rw [auditAppendCount_append, a1, a2]
              · rw [vcCommitCount_append, v1, v2]
              · rw [l2, l1]

theorem satisfy_condition_trace (cfg : EngineConfig) (st : EngineState)
    (cond_id : String) (doc_ids : List String) (st' : EngineState)
    (evs : List Event)
    (h : satisfy_condition cfg st cond_id doc_ids = Except.ok (st', evs)) :
    auditAppendCount evs = 0 ∧ vcCommitCount evs = 0 ∧
      st'.audit_log = st.audit_log := by
  unfold satisfy_condition at h
  split at h
  · cases h
  · rename_i cond hcond
    split at h
    · cases h
    · rename_i r st1 evs1 hr
      simp only [Except.ok.injEq, Prod.mk.injEq] at h
      obtain ⟨h1, h2⟩ := h
      subst h1
      subst h2
      have hfacts : auditAppendCount evs1 = 0 ∧ vcCommitCount evs1 = 0 ∧
          st1.audit_log = st.audit_log := by
        by_cases hde : doc_ids.isEmpty
        · rw [if_pos hde] at hr
          simp only [Except.ok.injEq, Prod.mk.injEq] at hr
          obtain ⟨hr1, hr2⟩ := hr
          subst hr1
          subst hr2
          exact ⟨rfl, rfl, rfl⟩
        · rw [if_neg hde] at hr
          exact linkLoop_trace cfg cond_id doc_ids st st1 evs1 hr
      obtain ⟨a1, v1, l1⟩ := hfacts
      refine ⟨?_, ?_, ?_⟩
      · rw [auditAppendCount_append, a1]
        rfl
      · rw [vcCommitCount_append, v1]
        rfl
      · exact l1

/-- The condition value as rewritten by waive_condition. -/
def waiveCondPure (cfg : EngineConfig) (cond : ConditionPrecedent)
    (waiver_date : Option PyDate) (waiver_document_id : Option String) :
    ConditionPrecedent :=
  let cond2 :=
    { cond with
      status := ConditionStatus.waived
      waived_date := match waiver_date with
        | Option.some d => Option.some d
        | Option.none => Option.some cfg.today }
  if pyTruthy waiver_document_id then
    { cond2 with waiver_document_id := waiver_document_id }
  else cond2

theorem waive_condition_ok (cfg : EngineConfig) (st : EngineState)
    (cond_id : String) (wd : Option PyDate) (wdoc : Option String)
    (cond : ConditionPrecedent)
    (hcond : st.store.get_condition cond_id = Option.some cond) :
    waive_condition cfg st cond_id wd wdoc =
      Except.ok
        ({ st with store := st.store.save_condition (waiveCondPure cfg cond wd wdoc) },
         [Event.save_condition (waiveCondPure cfg cond wd wdoc).id]) := by
  simp only [waive_condition, hcond, waiveCondPure]
  rfl

/-! ## Specification of the create_transaction phases -/

theorem auditAppendCount_nil : auditAppendCount [] = 0 := rfl

theorem vcCommitCount_nil : vcCommitCount [] = 0 := rfl

theorem auditAppendCount_cons_save_txn (i : String) (l : List Event) :
    auditAppendCount (Event.save_transaction i :: l) = auditAppendCount l := by
  simp [auditAppendCount, List.countP_cons]

theorem vcCommitCount_cons_save_txn (i : String) (l : List Event) :
    vcCommitCount (Event.save_transaction i :: l) = vcCommitCount l := by
  simp [vcCommitCount, List.countP_cons]

theorem auditAppendCount_cons_append (r : AuditRecord) (l : List Event) :
    auditAppendCount (Event.audit_append r :: l) = auditAppendCount l + 1 := by
  simp [auditAppendCount, List.countP_cons]

theorem vcCommitCount_cons_commit (a t i : String) (g : Option String)
    (l : List Event) :
    vcCommitCount (Event.vc_commit a t i g :: l) = vcCommitCount l + 1 := by
  simp [vcCommitCount, List.countP_cons]

theorem auditAppendCount_cons_of_ne (e : Event) (l : List Event)
    (h : (match e with | Event.audit_append _ => true | _ => false) = false) :
    auditAppendCount (e :: l) = auditAppendCount l := by
  simp [auditAppendCount, List.countP_cons, h]

theorem vcCommitCount_cons_of_ne (e : Event) (l : List Event)
    (h : (match e with | Event.vc_commit _ _ _ _ => true | _ => false) = false) :
    vcCommitCount (e :: l) = vcCommitCount l := by
  simp [vcCommitCount, List.countP_cons, h]

theorem createDocsLoop_map (cfg : EngineConfig) (txn : Transaction) :
    ∀ (ts : List (String × DocumentTemplate)) (st : EngineState),
      (createDocsLoop cfg txn st ts).1 = docKeyIds ts st.next_id := by
  intro ts
  induction ts with
  | nil => intro st; rfl
  | cons hd rest ih =>
      intro st
      obtain ⟨key, tmpl⟩ := hd
      simp only [createDocsLoop, docKeyIds, freshId]
      rw [ih]

theorem createDocsLoop_audit (cfg : EngineConfig) (txn : Transaction) :
    ∀ (ts : List (String × DocumentTemplate)) (st : EngineState),
      (createDocsLoop cfg txn st ts).2.2.1.audit_log = st.audit_log := by
  intro ts
  induction ts with
  | nil => intro st; rfl
  | cons hd rest ih =>
      intro st
      obtain ⟨key, tmpl⟩ := hd
      simp only [createDocsLoop, freshId]
      rw [ih]

theorem createDocsLoop_rels (cfg : EngineConfig) (txn : Transaction) :
    ∀ (ts : List (String × DocumentTemplate)) (st : EngineState),
      (createDocsLoop cfg txn st ts).2.2.1.relationships = st.relationships := by
  intro ts
  induction ts with
  | nil => intro st; rfl
  | cons hd rest ih =>
      intro st
      obtain ⟨key, tmpl⟩ := hd
      simp only [createDocsLoop, freshId]
      rw [ih]

theorem createDocsLoop_next_id (cfg : EngineConfig) (txn : Transaction) :
    ∀ (ts : List (String × DocumentTemplate)) (st : EngineState),
      (createDocsLoop cfg txn st ts).2.2.1.next_id = st.next_id + ts.length := by
  intro ts
  induction ts with
  | nil => intro st; rfl
  | cons hd rest ih =>
      intro st
      obtain ⟨key, tmpl⟩ := hd
      simp only [createDocsLoop, List.length_cons, freshId]
      rw [ih]
      show st.next_id + 1 + rest.length = st.next_id + (rest.length + 1)
      omega

theorem createDocsLoop_txns (cfg : EngineConfig) (txn : Transaction) :
    ∀ (ts : List (String × DocumentTemplate)) (st : EngineState),
      (createDocsLoop cfg txn st ts).2.2.1.store.transactions =
        st.store.transactions := by
  intro ts
  induction ts with
  | nil => intro st; rfl
  | cons hd rest ih =>
      intro st
      obtain ⟨key, tmpl⟩ := hd
      simp only [createDocsLoop, freshId]
      rw [ih]
      rfl

theorem createDocsLoop_auditCount (cfg : EngineConfig) (txn : Transaction) :
    ∀ (ts : List (String × DocumentTemplate)) (st : EngineState),
      auditAppendCount (createDocsLoop cfg txn st ts).2.2.2 = 0 := by
  intro ts
  induction ts with
  | nil => intro st; rfl
  | cons hd rest ih =>
      intro st
      obtain ⟨key, tmpl⟩ := hd
      simp only [createDocsLoop, freshId]
      rw [auditAppendCount_cons_of_ne _ _ rfl, ih]

theorem createDocsLoop_vcCount (cfg : EngineConfig) (txn : Transaction) :
    ∀ (ts : List (String × DocumentTemplate)) (st : EngineState),
      vcCommitCount (createDocsLoop cfg txn st ts).2.2.2 = 0 := by
  intro ts
  induction ts with
  | nil => intro st; rfl
  | cons hd rest ih =>
      intro st
      obtain ⟨key, tmpl⟩ := hd
      simp only [createDocsLoop, freshId]
      rw [vcCommitCount_cons_of_ne _ _ rfl, ih]

/-- The per-template edge collection of createCondsLoop, as gated by the
truthiness check on the key map. -/
def condRelsOf (doc_key_map : Option (List (String × String))) (txn_id : String)
    (cts : List ConditionTemplate) (n : Nat) : List Relationship :=
  match doc_key_map with
  | Option.some m => if m.isEmpty then [] else condEdgesFrom m txn_id cts n
  | Option.none => []

theorem createCondsLoop_ids (cfg : EngineConfig) (txn_id : String)
    (dkm : Option (List (String × String))) :
    ∀ (cts : List ConditionTemplate) (st : EngineState),
      (createCondsLoop cfg txn_id dkm st cts).1 = condIdsFrom cts st.next_id := by
  intro cts
  induction cts with
  | nil => intro st; rfl
  | cons tmpl rest ih =>
      intro st
      simp only [createCondsLoop, condIdsFrom, freshId]
      rw [ih]

theorem createCondsLoop_edges (cfg : EngineConfig) (txn_id : String)
    (dkm : Option (List (String × String))) :
    ∀ (cts : List ConditionTemplate) (st : EngineState),
      (createCondsLoop cfg txn_id dkm st cts).2.1 =
        condRelsOf dkm txn_id cts st.next_id := by
  intro cts
  induction cts with
  | nil =>
      intro st
      cases dkm with
      | none => rfl
      | some m =>
          simp only [createCondsLoop, condRelsOf, condEdgesFrom]
          split <;> rfl
  | cons tmpl rest ih =>
      intro st
      simp only [createCondsLoop, condRelsOf, freshId]
      rw [ih]
      cases dkm with
      | none => rfl
      | some m =>
          by_cases hm : m.isEmpty
          · simp [condRelsOf, hm]
          · simp [condRelsOf, hm, condEdgesFrom]

theorem createCondsLoop_audit (cfg : EngineConfig) (txn_id : String)
    (dkm : Option (List (String × String))) :
    ∀ (cts : List ConditionTemplate) (st : EngineState),
      (createCondsLoop cfg txn_id dkm st cts).2.2.1.audit_log = st.audit_log := by
  intro cts
  induction cts with
  | nil => intro st; rfl
  | cons tmpl rest ih =>
      intro st
      simp only [createCondsLoop, freshId]
      rw [ih]

theorem createCondsLoop_rels (cfg : EngineConfig) (txn_id : String)
    (dkm : Option (List (String × String))) :
    ∀ (cts : List ConditionTemplate) (st : EngineState),
      (createCondsLoop cfg txn_id dkm st cts).2.2.1.relationships =
        st.relationships := by
  intro cts
  induction cts with
  | nil => intro st; rfl
  | cons tmpl rest ih =>
      intro st
      simp only [createCondsLoop, freshId]
      rw [ih]

theorem createCondsLoop_next_id (cfg : EngineConfig) (txn_id : String)
    (dkm : Option (List (String × String))) :
    ∀ (cts : List ConditionTemplate) (st : EngineState),
      (createCondsLoop cfg txn_id dkm st cts).2.2.1.next_id =
        st.next_id + cts.length := by
  intro cts
  induction cts with
  | nil => intro st; rfl
  | cons tmpl rest ih =>
      intro st
      simp only [createCondsLoop, List.length_cons, freshId]
      rw [ih]
      show st.next_id + 1 + rest.length = st.next_id + (rest.length + 1)
      omega

theorem createCondsLoop_txns (cfg : EngineConfig) (txn_id : String)
    (dkm : Option (List (String × String))) :
    ∀ (cts : List ConditionTemplate) (st : EngineState),
      (createCondsLoop cfg txn_id dkm st cts).2.2.1.store.transactions =
        st.store.transactions := by
  intro cts
  induction cts with
  | nil => intro st; rfl
  | cons tmpl rest ih =>
      intro st
      simp only [createCondsLoop, freshId]
      rw [ih]
      rfl

theorem createCondsLoop_auditCount (cfg : EngineConfig) (txn_id : String)
    (dkm : Option (List (String × String))) :
    ∀ (cts : List ConditionTemplate) (st : EngineState),
      auditAppendCount (createCondsLoop cfg txn_id dkm st cts).2.2.2 = 0 := by
  intro cts
  induction cts with
  | nil => intro st; rfl
  | cons tmpl rest ih =>
      intro st
      simp only [createCondsLoop, freshId]
      rw [auditAppendCount_cons_of_ne _ _ rfl, ih]

theorem createCondsLoop_vcCount (cfg : EngineConfig) (txn_id : String)
    (dkm : Option (List (String × String))) :
    ∀ (cts : List ConditionTemplate) (st : EngineState),
      vcCommitCount (createCondsLoop cfg txn_id dkm st cts).2.2.2 = 0 := by
  intro cts
  induction cts with
  | nil => intro st; rfl
  | cons tmpl rest ih =>
      intro st
      simp only [createCondsLoop, freshId]
      rw [vcCommitCount_cons_of_ne _ _ rfl, ih]

theorem create_standard_documents_facts (cfg : EngineConfig) (st : EngineState)
    (txn : Transaction) :
    (create_standard_documents cfg st txn).1 =
        docKeyIds cfg.ontology.document_templates st.next_id ∧
    (create_standard_documents cfg st txn).2.1.id = txn.id ∧
    (create_standard_documents cfg st txn).2.1.name = txn.name ∧
    (create_standard_documents cfg st txn).2.2.1.audit_log = st.audit_log ∧
    (create_standard_documents cfg st txn).2.2.1.relationships =
        st.relationships ∧
    (create_standard_documents cfg st txn).2.2.1.next_id =
        st.next_id + cfg.ontology.document_templates.length ∧
    (create_standard_documents cfg st txn).2.2.1.store.get_transaction txn.id =
        Option.some (create_standard_documents cfg st txn).2.1 ∧
    auditAppendCount (create_standard_documents cfg st txn).2.2.2 = 0 ∧
    vcCommitCount (create_standard_documents cfg st txn).2.2.2 = 0 := by
  refine ⟨?_, rfl, rfl, ?_, ?_, ?_, ?_, ?_, ?_⟩
  · exact createDocsLoop_map cfg txn cfg.ontology.document_templates st
  · exact createDocsLoop_audit cfg txn cfg.ontology.document_templates st
  · exact createDocsLoop_rels cfg txn cfg.ontology.document_templates st
  · exact createDocsLoop_next_id cfg txn cfg.ontology.document_templates st
  · exact alookup_aupsert_self _ _ _
  · show auditAppendCount
        ((createDocsLoop cfg txn st cfg.ontology.document_templates).2.2.2 ++
          [Event.save_transaction (create_standard_documents cfg st txn).2.1.id]) = 0
    rw [auditAppendCount_append,
      createDocsLoop_auditCount cfg txn cfg.ontology.document_templates st]
    rfl
  · show vcCommitCount
        ((createDocsLoop cfg txn st cfg.ontology.document_templates).2.2.2 ++
          [Event.save_transaction (create_standard_documents cfg st txn).2.1.id]) = 0
    rw [vcCommitCount_append,
      createDocsLoop_vcCount cfg txn cfg.ontology.document_templates st]
    rfl

theorem create_standard_conditions_facts (cfg : EngineConfig) (st : EngineState)
    (txn : Transaction) (dkm : Option (List (String × String))) :
    (create_standard_conditions cfg st txn dkm).2.1.id = txn.id ∧
    (create_standard_conditions cfg st txn dkm).2.1.name = txn.name ∧
    (create_standard_conditions cfg st txn dkm).2.2.1.audit_log = st.audit_log ∧
    (create_standard_conditions cfg st txn dkm).2.2.1.relationships =
        st.relationships ++
          condRelsOf dkm txn.id cfg.ontology.condition_templates st.next_id ∧
    (create_standard_conditions cfg st txn dkm).2.2.1.store.get_transaction txn.id =
        Option.some (create_standard_conditions cfg st txn dkm).2.1 ∧
    auditAppendCount (create_standard_conditions cfg st txn dkm).2.2.2 = 0 ∧
    vcCommitCount (create_standard_conditions cfg st txn dkm).2.2.2 = 0 := by
  have hedges := createCondsLoop_edges cfg txn.id dkm
    cfg.ontology.condition_templates st
  have hrels := createCondsLoop_rels cfg txn.id dkm
    cfg.ontology.condition_templates st
  have haudit := createCondsLoop_audit cfg txn.id dkm
    cfg.ontology.condition_templates st
  have hac := createCondsLoop_auditCount cfg txn.id dkm
    cfg.ontology.condition_templates st
  have hvc := createCondsLoop_vcCount cfg txn.id dkm
    cfg.ontology.condition_templates st
  refine ⟨?_, ?_, ?_, ?_, ?_, ?_, ?_⟩ <;> simp only [create_standard_conditions]
  · split <;> rfl
  · split <;> rfl
  · split <;> exact haudit
  · split
    · rename_i h
      rw [hedges] at h
      rw [List.isEmpty_iff] at h
      rw [h, List.append_nil]
      exact hrels
    · show (createCondsLoop cfg txn.id dkm st cfg.ontology.condition_templates).2.2.1.relationships ++
          (createCondsLoop cfg txn.id dkm st cfg.ontology.condition_templates).2.1 =
          st.relationships ++
            condRelsOf dkm txn.id cfg.ontology.condition_templates st.next_id
      rw [hrels, hedges]
  · split <;> exact alookup_aupsert_self _ _ _
  · split
    · show auditAppendCount
          ((createCondsLoop cfg txn.id dkm st cfg.ontology.condition_templates).2.2.2 ++
            [Event.save_transaction txn.id]) = 0
      rw [auditAppendCount_append, hac]
      rfl
    · show auditAppendCount
          ((createCondsLoop cfg txn.id dkm st cfg.ontology.condition_templates).2.2.2 ++
            [Event.save_transaction txn.id,
             Event.add_relationships
               (createCondsLoop cfg txn.id dkm st cfg.ontology.condition_templates).2.1]) = 0
      rw [auditAppendCount_append, hac]
      rfl
  · split
    · show vcCommitCount
          ((createCondsLoop cfg txn.id dkm st cfg.ontology.condition_templates).2.2.2 ++
            [Event.save_transaction txn.id]) = 0
      rw [vcCommitCount_append, hvc]
      rfl
    · show vcCommitCount
          ((createCondsLoop cfg txn.id dkm st cfg.ontology.condition_templates).2.2.2 ++
            [Event.save_transaction txn.id,
             Event.add_relationships
               (createCondsLoop cfg txn.id dkm st cfg.ontology.condition_templates).2.1]) = 0
      rw [vcCommitCount_append, hvc]
      rfl

/-- The change payload logged by create_transaction. -/
def ctChanges (name : String) (fa : PyFloat) (cd : Option PyDate) :
    List (String × PyValue) :=
  [("name", PyValue.str name),
   ("facility_amount", PyValue.float fa),
   ("closing_date", match cd with
      | Option.some d => PyValue.str d.iso
      | Option.none => PyValue.none)]

/-- The audit record produced by create_transaction when versioning is
enabled. -/
def ctRecord (cfg : EngineConfig) (st : EngineState) (name : String)
    (fa : PyFloat) (cd : Option PyDate) : AuditRecord where
  action := "CREATE"
  entity_type := "transaction"
  entity_id := mkId st.next_id
  changes := ctChanges name fa cd
  git_commit := cfg.vc_commit "CREATE" "transaction" (mkId st.next_id)

theorem create_transaction_trace_ver (cfg : EngineConfig) (st : EngineState)
    (name : String) (tt : TransactionType) (fa : PyFloat) (cd : Option PyDate)
    (dflag cflag : Bool) (hver : cfg.versioning_enabled = true) :
    ∃ rest,
      (create_transaction cfg st name tt fa cd dflag cflag).2.2 =
        Event.save_transaction (mkId st.next_id) ::
        Event.vc_commit "CREATE" "transaction" (mkId st.next_id)
          (cfg.vc_commit "CREATE" "transaction" (mkId st.next_id)) ::
        Event.audit_append (ctRecord cfg st name fa cd) :: rest ∧
      auditAppendCount rest = 0 ∧ vcCommitCount rest = 0 := by
  simp only [create_transaction, freshId, logAction_ver hver, ctRecord, ctChanges]
  cases dflag <;> cases cflag <;>
    simp only [Bool.false_eq_true, if_false, if_true, List.append_eq,
      List.cons_append, List.nil_append, List.append_nil]
  · exact ⟨[], rfl, rfl, rfl⟩
  · refine ⟨_, rfl, ?_, ?_⟩
    · exact (create_standard_conditions_facts _ _ _ _).2.2.2.2.2.1
    · exact (create_standard_conditions_facts _ _ _ _).2.2.2.2.2.2
  · refine ⟨_, rfl, ?_, ?_⟩
    · exact (create_standard_documents_facts _ _ _).2.2.2.2.2.2.2.1
    · exact (create_standard_documents_facts _ _ _).2.2.2.2.2.2.2.2
  · refine ⟨_, rfl, ?_, ?_⟩
    · rw [auditAppendCount_append,
        (create_standard_documents_facts _ _ _).2.2.2.2.2.2.2.1,
        (create_standard_conditions_facts _ _ _ _).2.2.2.2.2.1]
    · rw [vcCommitCount_append,
        (create_standard_documents_facts _ _ _).2.2.2.2.2.2.2.2,
        (create_standard_conditions_facts _ _ _ _).2.2.2.2.2.2]

theorem create_transaction_audit_ver (cfg : EngineConfig) (st : EngineState)
    (name : String) (tt : TransactionType) (fa : PyFloat) (cd : Option PyDate)
    (dflag cflag : Bool) (hver : cfg.versioning_enabled = true) :
    (create_transaction cfg st name tt fa cd dflag cflag).2.1.audit_log =
      st.audit_log ++ [ctRecord cfg st name fa cd] := by
  simp only [create_transaction, freshId, logAction_ver hver, ctRecord, ctChanges]
  cases dflag <;> cases cflag <;>
    simp only [Bool.false_eq_true, if_false, if_true]
  · exact (create_standard_conditions_facts _ _ _ _).2.2.1
  · exact (create_standard_documents_facts _ _ _).2.2.2.1
  · exact ((create_standard_conditions_facts _ _ _ _).2.2.1).trans
      ((create_standard_documents_facts _ _ _).2.2.2.1)

theorem create_transaction_nover (cfg : EngineConfig) (st : EngineState)
    (name : String) (tt : TransactionType) (fa : PyFloat) (cd : Option PyDate)
    (dflag cflag : Bool) (hver : cfg.versioning_enabled = false) :
    (create_transaction cfg st name tt fa cd dflag cflag).2.1.audit_log =
        st.audit_log ∧
    auditAppendCount (create_transaction cfg st name tt fa cd dflag cflag).2.2 = 0 ∧
    vcCommitCount (create_transaction cfg st name tt fa cd dflag cflag).2.2 = 0 := by
  simp only [create_transaction, freshId, logAction_nover hver]
  cases dflag <;> cases cflag <;>
    simp only [Bool.false_eq_true, if_false, if_true, List.append_eq,
      List.cons_append, List.nil_append, List.append_nil] <;>
    refine ⟨?_, ?_, ?_⟩ <;>
    first
      | trivial
      | exact (create_standard_conditions_facts _ _ _ _).2.2.1
      | exact (create_standard_documents_facts _ _ _).2.2.2.1
      | exact ((create_standard_conditions_facts _ _ _ _).2.2.1).trans
          ((create_standard_documents_facts _ _ _).2.2.2.1)
      | (rw [auditAppendCount_cons_save_txn]
         first
           | rfl
           | exact (create_standard_conditions_facts _ _ _ _).2.2.2.2.2.1
           | exact (create_standard_documents_facts _ _ _).2.2.2.2.2.2.2.1
           | rw [auditAppendCount_append,
               (create_standard_documents_facts _ _ _).2.2.2.2.2.2.2.1,
               (create_standard_conditions_facts _ _ _ _).2.2.2.2.2.1])
      | (rw [vcCommitCount_cons_save_txn]
         first
           | rfl
           | exact (create_standard_conditions_facts _ _ _ _).2.2.2.2.2.2
           | exact (create_standard_documents_facts _ _ _).2.2.2.2.2.2.2.2
           | rw [vcCommitCount_append,
               (create_standard_documents_facts _ _ _).2.2.2.2.2.2.2.2,
               (create_standard_conditions_facts _ _ _ _).2.2.2.2.2.2])

theorem create_transaction_result (cfg : EngineConfig) (st : EngineState)
    (name : String) (tt : TransactionType) (fa : PyFloat) (cd : Option PyDate)
    (dflag cflag : Bool) :
    ∃ t, (create_transaction cfg st name tt fa cd dflag cflag).1 =
        Option.some t ∧
      t.id = mkId st.next_id ∧ t.name = name := by
  simp only [create_transaction, freshId]
  cases dflag <;> cases cflag <;>
    simp only [Bool.false_eq_true, if_false, if_true]
  · rw [logAction_fst_store]
    exact ⟨_, alookup_aupsert_self _ _ _, rfl, rfl⟩
  · exact ⟨_, (create_standard_conditions_facts _ _ _ _).2.2.2.2.1,
      (create_standard_conditions_facts _ _ _ _).1,
      (create_standard_conditions_facts _ _ _ _).2.1⟩
  · exact ⟨_, (create_standard_documents_facts _ _ _).2.2.2.2.2.2.1,
      (create_standard_documents_facts _ _ _).2.1,
      (create_standard_documents_facts _ _ _).2.2.1⟩
  · exact ⟨_, (create_standard_conditions_facts _ _ _ _).2.2.2.2.1,
      ((create_standard_conditions_facts _ _ _ _).1).trans
        ((create_standard_documents_facts _ _ _).2.1),
      ((create_standard_conditions_facts _ _ _ _).2.1).trans
        ((create_standard_documents_facts _ _ _).2.2.1)⟩

theorem create_transaction_rels (cfg : EngineConfig) (st : EngineState)
    (name : String) (tt : TransactionType) (fa : PyFloat) (cd : Option PyDate) :
    (create_transaction cfg st name tt fa cd true true).2.1.relationships =
      st.relationships ++
        condRelsOf
          (Option.some (docKeyIds cfg.ontology.document_templates (st.next_id + 1)))
          (mkId st.next_id) cfg.ontology.condition_templates
          (st.next_id + 1 + cfg.ontology.document_templates.length) := by
  simp only [create_transaction, freshId, if_true]
  rw [(create_standard_conditions_facts _ _ _ _).2.2.2.1]
  rw [(create_standard_documents_facts _ _ _).1,
    (create_standard_documents_facts _ _ _).2.1,
    (create_standard_documents_facts _ _ _).2.2.2.2.1,
    (create_standard_documents_facts _ _ _).2.2.2.2.2.1]
  rw [logAction_fst_relationships, logAction_fst_next_id]

/-! ## Field lemmas for the mirrored update bodies -/

theorem get_document_save (s : DataStore) (d : Document) (k : String)
    (h : d.id = k) : (s.save_document d).get_document k = Option.some d := by
  unfold DataStore.save_document DataStore.get_document
  rw [h]
  exact alookup_aupsert_self _ _ _

theorem get_condition_save (s : DataStore) (c : ConditionPrecedent) (k : String)
    (h : c.id = k) : (s.save_condition c).get_condition k = Option.some c := by
  unfold DataStore.save_condition DataStore.get_condition
  rw [h]
  exact alookup_aupsert_self _ _ _

theorem get_transaction_save (s : DataStore) (t : Transaction) (k : String)
    (h : t.id = k) : (s.save_transaction t).get_transaction k = Option.some t := by
  unfold DataStore.save_transaction DataStore.get_transaction
  rw [h]
  exact alookup_aupsert_self _ _ _

theorem updDocPure_fields (today : PyDate) (doc : Document)
    (status : DocumentStatus) (notes : String) :
    (updDocPure today doc status notes).status = status ∧
    (updDocPure today doc status notes).notes =
      (if notes.isEmpty then doc.notes else notes) ∧
    (updDocPure today doc status notes).received_date =
      (if status = DocumentStatus.final then Option.some today
       else doc.received_date) ∧
    (updDocPure today doc status notes).execution_date =
      (if status = DocumentStatus.executed then Option.some today
       else doc.execution_date) ∧
    (updDocPure today doc status notes).id = doc.id ∧
    (updDocPure today doc status notes).document_type = doc.document_type ∧
    (updDocPure today doc status notes).title = doc.title ∧
    (updDocPure today doc status notes).description = doc.description ∧
    (updDocPure today doc status notes).responsible_party_id =
      doc.responsible_party_id ∧
    (updDocPure today doc status notes).reviewing_parties =
      doc.reviewing_parties ∧
    (updDocPure today doc status notes).due_date = doc.due_date ∧
    (updDocPure today doc status notes).parent_document_id =
      doc.parent_document_id ∧
    (updDocPure today doc status notes).related_document_ids =
      doc.related_document_ids ∧
    (updDocPure today doc status notes).satisfies_condition_ids =
      doc.satisfies_condition_ids ∧
    (updDocPure today doc status notes).current_version = doc.current_version ∧
    (updDocPure today doc status notes).file_path = doc.file_path ∧
    (updDocPure today doc status notes).created_at = doc.created_at ∧
    (updDocPure today doc status notes).updated_at = doc.updated_at := by
  by_cases h1 : status = DocumentStatus.final <;>
    by_cases h2 : status = DocumentStatus.executed <;>
    by_cases h3 : notes.isEmpty
  all_goals first
    | (rw [h1] at h2; exact absurd h2 (by decide))
    | simp [updDocPure, h1, h2, h3]

theorem updCondPure_fields (cond : ConditionPrecedent)
    (status : ConditionStatus) (notes : String) :
    (updCondPure cond status notes).status = status ∧
    (updCondPure cond status notes).notes =
      (if notes.isEmpty then cond.notes else notes) ∧
    (updCondPure cond status notes).id = cond.id ∧
    (updCondPure cond status notes).title = cond.title := by
  by_cases h3 : notes.isEmpty <;> simp [updCondPure, h3]

theorem addPartyTxn_id (txn : Transaction) (pid : String)
    (roles : List PartyRole) : (addPartyTxn txn pid roles).id = txn.id := by
  unfold addPartyTxn
  dsimp only
  split_ifs <;> rfl

theorem addPartyTxn_borrower (txn : Transaction) (pid : String)
    (roles : List PartyRole) :
    (addPartyTxn txn pid roles).borrower_id =
      (if roles.contains PartyRole.borrower && !pyTruthy txn.borrower_id
       then Option.some pid else txn.borrower_id) := by
  unfold addPartyTxn
  dsimp only
  split_ifs <;> simp_all

theorem addPartyTxn_agent (txn : Transaction) (pid : String)
    (roles : List PartyRole) :
    (addPartyTxn txn pid roles).agent_id =
      (if roles.contains PartyRole.administrative_agent && !pyTruthy txn.agent_id
       then Option.some pid else txn.agent_id) := by
  unfold addPartyTxn
  dsimp only
  split_ifs <;> simp_all

/-! ## Claim theorems -/

/-- C9: update_document_status with status FINAL sets received_date to the
current date, with EXECUTED sets execution_date to the current date, and any
other status leaves both dates unchanged; besides status, notes (only when a
non-empty notes argument is given) and these two dates, no other field of
the document is modified, and the updated document is what the store then
holds. -/
theorem claim9_update_document_status_frame (cfg : EngineConfig)
    (st : EngineState) (doc_id : String) (status : DocumentStatus)
    (notes : String) (doc : Document)
    (hdoc : st.store.get_document doc_id = Option.some doc)
    (hid : doc.id = doc_id) :
    ∃ st₂ evs,
      update_document_status cfg st doc_id status notes =
        Except.ok (updDocPure cfg.today doc status notes, st₂, evs) ∧
      st₂.store.get_document doc_id =
        Option.some (updDocPure cfg.today doc status notes) ∧
      (updDocPure cfg.today doc status notes).status = status ∧
      (updDocPure cfg.today doc status notes).notes =
        (if notes.isEmpty then doc.notes else notes) ∧
      (updDocPure cfg.today doc status notes).received_date =
        (if status = DocumentStatus.final then Option.some cfg.today
         else doc.received_date) ∧
      (updDocPure cfg.today doc status notes).execution_date =
        (if status = DocumentStatus.executed then Option.some cfg.today
         else doc.execution_date) ∧
      (updDocPure cfg.today doc status notes).id = doc.id ∧
      (updDocPure cfg.today doc status notes).document_type =
        doc.document_type ∧
      (updDocPure cfg.today doc status notes).title = doc.title ∧
      (updDocPure cfg.today doc status notes).description = doc.description ∧
      (updDocPure cfg.today doc status notes).responsible_party_id =
        doc.responsible_party_id ∧
      (updDocPure cfg.today doc status notes).reviewing_parties =
        doc.reviewing_parties ∧
      (updDocPure cfg.today doc status notes).due_date = doc.due_date ∧
      (updDocPure cfg.today doc status notes).parent_document_id =
        doc.parent_document_id ∧
      (updDocPure cfg.today doc status notes).related_document_ids =
        doc.related_document_ids ∧
      (updDocPure cfg.today doc status notes).satisfies_condition_ids =
        doc.satisfies_condition_ids ∧
      (updDocPure cfg.today doc status notes).current_version =
        doc.current_version ∧
      (updDocPure cfg.today doc status notes).file_path = doc.file_path ∧
      (updDocPure cfg.today doc status notes).created_at = doc.created_at ∧
      (updDocPure cfg.today doc status notes).updated_at = doc.updated_at := by
  have hfields := updDocPure_fields cfg.today doc status notes
  have hkey : (updDocPure cfg.today doc status notes).id = doc_id :=
    (hfields.2.2.2.2.1).trans hid
  by_cases hv : cfg.versioning_enabled = true
  · refine ⟨_, _, update_document_status_ver cfg st doc_id status notes doc hdoc hv, ?_, hfields⟩
    exact get_document_save _ _ _ hkey
  · rw [Bool.not_eq_true] at hv
    refine ⟨_, _, update_document_status_nover cfg st doc_id status notes doc hdoc hv, ?_, hfields⟩
    exact get_document_save _ _ _ hkey

/-- C9 witness: a concrete FINAL update on the demo document. -/
theorem claim9_update_document_status_frame_witness :
    demoState.store.get_document "d1" = Option.some demoDoc ∧
    demoDoc.id = "d1" ∧
    ∃ st₂ evs,
      update_document_status demoCfg demoState "d1" DocumentStatus.final "" =
        Except.ok (updDocPure demoCfg.today demoDoc DocumentStatus.final "",
          st₂, evs) ∧
      st₂.store.get_document "d1" =
        Option.some (updDocPure demoCfg.today demoDoc DocumentStatus.final "") ∧
      (updDocPure demoCfg.today demoDoc DocumentStatus.final "").status =
        DocumentStatus.final := by
  refine ⟨rfl, rfl, ?_⟩
  obtain ⟨st₂, evs, h1, h2, h3, _⟩ :=
    claim9_update_document_status_frame demoCfg demoState "d1"
      DocumentStatus.final "" demoDoc rfl rfl
  exact ⟨st₂, evs, h1, h2, h3⟩

/-- C10: add_party sets borrower_id (respectively agent_id) to the new party
only when the party has the BORROWER (respectively ADMINISTRATIVE_AGENT)
role and the field is currently unset (falsy); once either field is set, a
subsequent add_party call leaves it unchanged. -/
theorem claim10_add_party_role_refs (cfg : EngineConfig) (st : EngineState)
    (txn_id name : String) (roles : List PartyRole) (sn jd et : String)
    (txn : Transaction)
    (htxn : st.store.get_transaction txn_id = Option.some txn)
    (hid : txn.id = txn_id) :
    ∃ p st₂ evs,
      add_party cfg st txn_id name roles sn jd et = Except.ok (p, st₂, evs) ∧
      ∃ txn₂, st₂.store.get_transaction txn_id = Option.some txn₂ ∧
        txn₂.borrower_id =
          (if roles.contains PartyRole.borrower && !pyTruthy txn.borrower_id
           then Option.some p.id else txn.borrower_id) ∧
        txn₂.agent_id =
          (if roles.contains PartyRole.administrative_agent &&
              !pyTruthy txn.agent_id
           then Option.some p.id else txn.agent_id) ∧
        (pyTruthy txn.borrower_id = true → txn₂.borrower_id = txn.borrower_id) ∧
        (pyTruthy txn.agent_id = true → txn₂.agent_id = txn.agent_id) := by
  refine ⟨_, _, _, add_party_ok cfg st txn_id name roles sn jd et txn htxn,
    addPartyTxn txn (mkId st.next_id) roles, ?_, ?_, ?_, ?_, ?_⟩
  · exact get_transaction_save _ _ _ ((addPartyTxn_id txn _ roles).trans hid)
  · exact addPartyTxn_borrower txn _ roles
  · exact addPartyTxn_agent txn _ roles
  · intro h
    rw [addPartyTxn_borrower txn _ roles, h]
    simp
  · intro h
    rw [addPartyTxn_agent txn _ roles, h]
    simp

/-- C10 witness: adding a borrower party to the demo transaction, whose
borrower_id is unset, sets borrower_id to the new party. -/
theorem claim10_add_party_role_refs_witness :
    demoState.store.get_transaction "t1" =
      Option.some { demoTxn with document_ids := ["d1"], condition_ids := ["c1"] } ∧
    ∃ p st₂ evs,
      add_party demoCfg demoState "t1" "XYZ Corp" [PartyRole.borrower] "" "" "" =
        Except.ok (p, st₂, evs) ∧
      ∃ txn₂, st₂.store.get_transaction "t1" = Option.some txn₂ ∧
        txn₂.borrower_id = Option.some p.id := by
  refine ⟨rfl, ?_⟩
  obtain ⟨p, st₂, evs, h1, txn₂, h2, h3, _⟩ :=
    claim10_add_party_role_refs demoCfg demoState "t1" "XYZ Corp"
      [PartyRole.borrower] "" "" ""
      { demoTxn with document_ids := ["d1"], condition_ids := ["c1"] } rfl rfl
  refine ⟨p, st₂, evs, h1, txn₂, h2, ?_⟩
  rw [h3]
  rfl

/-- C1: every provenance-producing engine operation (create_transaction,
update_document_status, update_condition_status) performs the entity-store
write first, then the version-control commit, then the audit-log append, and
the appended record carries exactly the revision reference returned by the
commit.  The trace literal exhibits the order; the record equations exhibit
the reference flow. -/
theorem claim1_provenance_order (cfg : EngineConfig) (st : EngineState)
    (hver : cfg.versioning_enabled = true) :
    (∀ name tt fa cd dflag cflag, ∃ rest,
      (create_transaction cfg st name tt fa cd dflag cflag).2.2 =
        Event.save_transaction (mkId st.next_id) ::
        Event.vc_commit "CREATE" "transaction" (mkId st.next_id)
          (cfg.vc_commit "CREATE" "transaction" (mkId st.next_id)) ::
        Event.audit_append (ctRecord cfg st name fa cd) :: rest ∧
      (ctRecord cfg st name fa cd).git_commit =
        cfg.vc_commit "CREATE" "transaction" (mkId st.next_id) ∧
      auditAppendCount rest = 0 ∧ vcCommitCount rest = 0) ∧
    (∀ doc_id status notes doc,
      st.store.get_document doc_id = Option.some doc →
      update_document_status cfg st doc_id status notes =
        Except.ok (updDocPure cfg.today doc status notes,
          { st with
            store := st.store.save_document (updDocPure cfg.today doc status notes)
            audit_log := st.audit_log ++
              [updDocRecord cfg doc doc_id status notes] },
          [Event.save_document doc_id,
           Event.vc_commit "UPDATE" "document" doc_id
             (cfg.vc_commit "UPDATE" "document" doc_id),
           Event.audit_append (updDocRecord cfg doc doc_id status notes)]) ∧
      (updDocRecord cfg doc doc_id status notes).git_commit =
        cfg.vc_commit "UPDATE" "document" doc_id) ∧
    (∀ cond_id status notes cond,
      st.store.get_condition cond_id = Option.some cond →
      update_condition_status cfg st cond_id status notes =
        Except.ok (updCondPure cond status notes,
          { st with
            store := st.store.save_condition (updCondPure cond status notes)
            audit_log := st.audit_log ++
              [updCondRecord cfg cond cond_id status notes] },
          [Event.save_condition cond_id,
           Event.vc_commit "UPDATE" "condition" cond_id
             (cfg.vc_commit "UPDATE" "condition" cond_id),
           Event.audit_append (updCondRecord cfg cond cond_id status notes)]) ∧
      (updCondRecord cfg cond cond_id status notes).git_commit =
        cfg.vc_commit "UPDATE" "condition" cond_id) := by
  refine ⟨?_, ?_, ?_⟩
  · intro name tt fa cd dflag cflag
    obtain ⟨rest, h1, h2, h3⟩ :=
      create_transaction_trace_ver cfg st name tt fa cd dflag cflag hver
    exact ⟨rest, h1, rfl, h2, h3⟩
  · intro doc_id status notes doc hdoc
    exact ⟨update_document_status_ver cfg st doc_id status notes doc hdoc hver,
      rfl⟩
  · intro cond_id status notes cond hcond
    exact ⟨update_condition_status_ver cfg st cond_id status notes cond hcond
      hver, rfl⟩

/-- C1 witness: the concrete trace of a document status update on the demo
state. -/
theorem claim1_provenance_order_witness :
    demoCfg.versioning_enabled = true ∧
    demoState.store.get_document "d1" = Option.some demoDoc ∧
    (update_document_status demoCfg demoState "d1" DocumentStatus.final "" =
      Except.ok (updDocPure demoCfg.today demoDoc DocumentStatus.final "",
        { demoState with
          store := demoState.store.save_document
            (updDocPure demoCfg.today demoDoc DocumentStatus.final "")
          audit_log := demoState.audit_log ++
            [updDocRecord demoCfg demoDoc "d1" DocumentStatus.final ""] },
        [Event.save_document "d1",
         Event.vc_commit "UPDATE" "document" "d1"
           (demoCfg.vc_commit "UPDATE" "document" "d1"),
         Event.audit_append
           (updDocRecord demoCfg demoDoc "d1" DocumentStatus.final "")]) ∧
     (updDocRecord demoCfg demoDoc "d1" DocumentStatus.final "").git_commit =
       demoCfg.vc_commit "UPDATE" "document" "d1") :=
  ⟨rfl, rfl,
    (claim1_provenance_order demoCfg demoState rfl).2.1 "d1"
      DocumentStatus.final "" demoDoc rfl⟩

/-- C3: with versioning enabled but the revision backend unavailable (the
commit oracle returns null for this call), update_document_status still
succeeds, the document is stored with the new status, and exactly one audit
record is appended whose git_commit reference is null. -/
theorem claim3_null_backend_mutation_and_audit (cfg : EngineConfig)
    (st : EngineState) (doc_id : String) (status : DocumentStatus)
    (notes : String) (doc : Document)
    (hdoc : st.store.get_document doc_id = Option.some doc)
    (hid : doc.id = doc_id)
    (hver : cfg.versioning_enabled = true)
    (hvc : cfg.vc_commit "UPDATE" "document" doc_id = Option.none) :
    ∃ st₂ evs,
      update_document_status cfg st doc_id status notes =
        Except.ok (updDocPure cfg.today doc status notes, st₂, evs) ∧
      (updDocPure cfg.today doc status notes).status = status ∧
      st₂.store.get_document doc_id =
        Option.some (updDocPure cfg.today doc status notes) ∧
      st₂.audit_log = st.audit_log ++
        [updDocRecord cfg doc doc_id status notes] ∧
      (updDocRecord cfg doc doc_id status notes).git_commit = Option.none := by
  have hfields := updDocPure_fields cfg.today doc status notes
  refine ⟨_, _, update_document_status_ver cfg st doc_id status notes doc hdoc
    hver, hfields.1, ?_, rfl, ?_⟩
  · exact get_document_save _ _ _ ((hfields.2.2.2.2.1).trans hid)
  · show cfg.vc_commit "UPDATE" "document" doc_id = Option.none
    exact hvc

/-- C3 witness: the demo configuration with a null version-control backend
still saves the document and appends an audit record with a null revision
reference. -/
theorem claim3_null_backend_mutation_and_audit_witness :
    demoCfgNullVC.versioning_enabled = true ∧
    demoCfgNullVC.vc_commit "UPDATE" "document" "d1" = Option.none ∧
    ∃ st₂ evs,
      update_document_status demoCfgNullVC demoState "d1"
          DocumentStatus.executed "signed" =
        Except.ok (updDocPure demoCfgNullVC.today demoDoc
          DocumentStatus.executed "signed", st₂, evs) ∧
      (updDocPure demoCfgNullVC.today demoDoc
        DocumentStatus.executed "signed").status = DocumentStatus.executed ∧
      st₂.store.get_document "d1" =
        Option.some (updDocPure demoCfgNullVC.today demoDoc
          DocumentStatus.executed "signed") ∧
      st₂.audit_log = demoState.audit_log ++
        [updDocRecord demoCfgNullVC demoDoc "d1" DocumentStatus.executed
          "signed"] ∧
      (updDocRecord demoCfgNullVC demoDoc "d1" DocumentStatus.executed
        "signed").git_commit = Option.none :=
  ⟨rfl, rfl,
    claim3_null_backend_mutation_and_audit demoCfgNullVC demoState "d1"
      DocumentStatus.executed "signed" demoDoc rfl rfl rfl rfl⟩

/-- C7: for every status update through update_document_status or
update_condition_status on an existing entity, the change payload handed to
the audit log names the field and carries both the old and the new status
value. -/
theorem claim7_change_payload_old_and_new (cfg : EngineConfig)
    (st : EngineState) (hver : cfg.versioning_enabled = true) :
    (∀ doc_id status notes doc,
      st.store.get_document doc_id = Option.some doc →
      ∃ st₂ evs,
        update_document_status cfg st doc_id status notes =
          Except.ok (updDocPure cfg.today doc status notes, st₂, evs) ∧
        st₂.audit_log = st.audit_log ++
          [updDocRecord cfg doc doc_id status notes] ∧
        (updDocRecord cfg doc doc_id status notes).changes =
          [("field", PyValue.str "status"),
           ("old_value", PyValue.str doc.status.value),
           ("new_value", PyValue.str status.value),
           ("title", PyValue.str (updDocPure cfg.today doc status notes).title)]) ∧
    (∀ cond_id status notes cond,
      st.store.get_condition cond_id = Option.some cond →
      ∃ st₂ evs,
        update_condition_status cfg st cond_id status notes =
          Except.ok (updCondPure cond status notes, st₂, evs) ∧
        st₂.audit_log = st.audit_log ++
          [updCondRecord cfg cond cond_id status notes] ∧
        (updCondRecord cfg cond cond_id status notes).changes =
          [("field", PyValue.str "status"),
           ("old_value", PyValue.str cond.status.value),
           ("new_value", PyValue.str status.value),
           ("title", PyValue.str (updCondPure cond status notes).title)]) := by
  refine ⟨?_, ?_⟩
  · intro doc_id status notes doc hdoc
    exact ⟨_, _,
      update_document_status_ver cfg st doc_id status notes doc hdoc hver,
      rfl, rfl⟩
  · intro cond_id status notes cond hcond
    exact ⟨_, _,
      update_condition_status_ver cfg st cond_id status notes cond hcond hver,
      rfl, rfl⟩

/-- C7 witness: the concrete change payload of a condition status update. -/
theorem claim7_change_payload_old_and_new_witness :
    demoCfg.versioning_enabled = true ∧
    demoState.store.get_condition "c1" = Option.some demoCond ∧
    ∃ st₂ evs,
      update_condition_status demoCfg demoState "c1"
          ConditionStatus.satisfied "" =
        Except.ok (updCondPure demoCond ConditionStatus.satisfied "", st₂, evs) ∧
      st₂.audit_log = demoState.audit_log ++
        [updCondRecord demoCfg demoCond "c1" ConditionStatus.satisfied ""] ∧
      (updCondRecord demoCfg demoCond "c1" ConditionStatus.satisfied
        "").changes =
        [("field", PyValue.str "status"),
         ("old_value", PyValue.str demoCond.status.value),
         ("new_value", PyValue.str ConditionStatus.satisfied.value),
         ("title", PyValue.str
           (updCondPure demoCond ConditionStatus.satisfied "").title)] :=
  ⟨rfl, rfl,
    (claim7_change_payload_old_and_new demoCfg demoState rfl).2 "c1"
      ConditionStatus.satisfied "" demoCond rfl⟩

/-- C2 counterexample: the claim says that when the revision tracker fails
(commit returns null) no audit record is written.  With versioning enabled
and a null-returning backend, updating the demo document appends exactly one
audit record, so the claim as stated is false. -/
theorem claim2_counterexample_audit_written_on_null_commit :
    (okState (update_document_status demoCfgNullVC demoState "d1"
        DocumentStatus.final "")).map (fun s => s.audit_log.length) =
      Option.some 1 := by
  rfl

/-- C2 (amended): if versioning is disabled, the business mutation still
stands and no audit record is written; if the tracker fails (commit returns
null) while versioning is enabled, the mutation still stands and the
provenance-producing operations append one audit record with a null
revision reference; the operations that do not log (add_party, add_document,
link_document_to_condition, satisfy_condition, waive_condition) never write
audit records. -/
theorem claim2_amended_degraded_logging (cfg : EngineConfig)
    (st : EngineState) :
    (cfg.versioning_enabled = false →
      (∀ name tt fa cd dflag cflag,
        (create_transaction cfg st name tt fa cd dflag cflag).2.1.audit_log =
          st.audit_log ∧
        auditAppendCount
          (create_transaction cfg st name tt fa cd dflag cflag).2.2 = 0 ∧
        ∃ t, (create_transaction cfg st name tt fa cd dflag cflag).1 =
            Option.some t ∧ t.name = name) ∧
      (∀ doc_id status notes doc,
        st.store.get_document doc_id = Option.some doc → doc.id = doc_id →
        ∃ st₂, update_document_status cfg st doc_id status notes =
            Except.ok (updDocPure cfg.today doc status notes, st₂,
              [Event.save_document doc_id]) ∧
          st₂.audit_log = st.audit_log ∧
          st₂.store.get_document doc_id =
            Option.some (updDocPure cfg.today doc status notes)) ∧
      (∀ cond_id status notes cond,
        st.store.get_condition cond_id = Option.some cond → cond.id = cond_id →
        ∃ st₂, update_condition_status cfg st cond_id status notes =
            Except.ok (updCondPure cond status notes, st₂,
              [Event.save_condition cond_id]) ∧
          st₂.audit_log = st.audit_log ∧
          st₂.store.get_condition cond_id =
            Option.some (updCondPure cond status notes))) ∧
    (cfg.versioning_enabled = true →
      (∀ name tt fa cd dflag cflag,
        cfg.vc_commit "CREATE" "transaction" (mkId st.next_id) = Option.none →
        (create_transaction cfg st name tt fa cd dflag cflag).2.1.audit_log =
          st.audit_log ++ [ctRecord cfg st name fa cd] ∧
        (ctRecord cfg st name fa cd).git_commit = Option.none ∧
        ∃ t, (create_transaction cfg st name tt fa cd dflag cflag).1 =
            Option.some t ∧ t.name = name) ∧
      (∀ doc_id status notes doc,
        st.store.get_document doc_id = Option.some doc → doc.id = doc_id →
        cfg.vc_commit "UPDATE" "document" doc_id = Option.none →
        ∃ st₂ evs, update_document_status cfg st doc_id status notes =
            Except.ok (updDocPure cfg.today doc status notes, st₂, evs) ∧
          st₂.audit_log = st.audit_log ++
            [updDocRecord cfg doc doc_id status notes] ∧
          (updDocRecord cfg doc doc_id status notes).git_commit =
            Option.none ∧
          st₂.store.get_document doc_id =
            Option.some (updDocPure cfg.today doc status notes)) ∧
      (∀ cond_id status notes cond,
        st.store.get_condition cond_id = Option.some cond → cond.id = cond_id →
        cfg.vc_commit "UPDATE" "condition" cond_id = Option.none →
        ∃ st₂ evs, update_condition_status cfg st cond_id status notes =
            Except.ok (updCondPure cond status notes, st₂, evs) ∧
          st₂.audit_log = st.audit_log ++
            [updCondRecord cfg cond cond_id status notes] ∧
          (updCondRecord cfg cond cond_id status notes).git_commit =
            Option.none ∧
          st₂.store.get_condition cond_id =
            Option.some (updCondPure cond status notes))) ∧
    (∀ txn_id name roles sn jd et p st₂ evs,
      add_party cfg st txn_id name roles sn jd et = Except.ok (p, st₂, evs) →
      st₂.audit_log = st.audit_log ∧ auditAppendCount evs = 0) ∧
    (∀ txn_id dt title rp due d st₂ evs,
      add_document cfg st txn_id dt title rp due = Except.ok (d, st₂, evs) →
      st₂.audit_log = st.audit_log ∧ auditAppendCount evs = 0) ∧
    (∀ doc_id cond_id st₂ evs,
      link_document_to_condition cfg st doc_id cond_id =
        Except.ok (st₂, evs) →
      st₂.audit_log = st.audit_log ∧ auditAppendCount evs = 0) ∧
    (∀ cond_id doc_ids st₂ evs,
      satisfy_condition cfg st cond_id doc_ids = Except.ok (st₂, evs) →
      st₂.audit_log = st.audit_log ∧ auditAppendCount evs = 0) ∧
    (∀ cond_id wd wdoc st₂ evs,
      waive_condition cfg st cond_id wd wdoc = Except.ok (st₂, evs) →
      st₂.audit_log = st.audit_log ∧ auditAppendCount evs = 0) := by
  refine ⟨?_, ?_, ?_, ?_, ?_, ?_, ?_⟩
  · intro hver
    refine ⟨?_, ?_, ?_⟩
    · intro name tt fa cd dflag cflag
      obtain ⟨h1, h2, _⟩ :=
        create_transaction_nover cfg st name tt fa cd dflag cflag hver
      obtain ⟨t, h4, _, h6⟩ :=
        create_transaction_result cfg st name tt fa cd dflag cflag
      exact ⟨h1, h2, t, h4, h6⟩
    · intro doc_id status notes doc hdoc hid
      refine ⟨_, update_document_status_nover cfg st doc_id status notes doc
        hdoc hver, rfl, ?_⟩
      exact get_document_save _ _ _
        (((updDocPure_fields cfg.today doc status notes).2.2.2.2.1).trans hid)
    · intro cond_id status notes cond hcond hid
      refine ⟨_, update_condition_status_nover cfg st cond_id status notes cond
        hcond hver, rfl, ?_⟩
      exact get_condition_save _ _ _
        (((updCondPure_fields cond status notes).2.2.1).trans hid)
  · intro hver
    refine ⟨?_, ?_, ?_⟩
    · intro name tt fa cd dflag cflag hvc
      obtain ⟨t, h4, _, h6⟩ :=
        create_transaction_result cfg st name tt fa cd dflag cflag
      refine ⟨create_transaction_audit_ver cfg st name tt fa cd dflag cflag
        hver, ?_, t, h4, h6⟩
      show cfg.vc_commit "CREATE" "transaction" (mkId st.next_id) = Option.none
      exact hvc
    · intro doc_id status notes doc hdoc hid hvc
      refine ⟨_, _, update_document_status_ver cfg st doc_id status notes doc
        hdoc hver, rfl, ?_, ?_⟩
      · show cfg.vc_commit "UPDATE" "document" doc_id = Option.none
        exact hvc
      · exact get_document_save _ _ _
          (((updDocPure_fields cfg.today doc status notes).2.2.2.2.1).trans hid)
    · intro cond_id status notes cond hcond hid hvc
      refine ⟨_, _, update_condition_status_ver cfg st cond_id status notes
        cond hcond hver, rfl, ?_, ?_⟩
      · show cfg.vc_commit "UPDATE" "condition" cond_id = Option.none
        exact hvc
      · exact get_condition_save _ _ _
          (((updCondPure_fields cond status notes).2.2.1).trans hid)
  · intro txn_id name roles sn jd et p st₂ evs h
    cases htxn : st.store.get_transaction txn_id with
    | none =>
        rw [add_party, htxn] at h
        exact Except.noConfusion h
    | some txn =>
        rw [add_party_ok cfg st txn_id name roles sn jd et txn htxn] at h
        simp only [Except.ok.injEq, Prod.mk.injEq] at h
        obtain ⟨_, h2, h3⟩ := h
        subst h2
        subst h3
        exact ⟨rfl, rfl⟩
  · intro txn_id dt title rp due d st₂ evs h
    cases htxn : st.store.get_transaction txn_id with
    | none =>
        rw [add_document, htxn] at h
        exact Except.noConfusion h
    | some txn =>
        obtain ⟨d₂, s₂, e₂, heq, hac, _, hau⟩ :=
          add_document_trace cfg st txn_id dt title rp due txn htxn
        rw [heq] at h
        simp only [Except.ok.injEq, Prod.mk.injEq] at h
        obtain ⟨_, h2, h3⟩ := h
        subst h2
        subst h3
        exact ⟨hau, hac⟩
  · intro doc_id cond_id st₂ evs h
    obtain ⟨hac, _, hau⟩ := link_trace cfg st doc_id cond_id st₂ evs h
    exact ⟨hau, hac⟩
  · intro cond_id doc_ids st₂ evs h
    obtain ⟨hac, _, hau⟩ :=
      satisfy_condition_trace cfg st cond_id doc_ids st₂ evs h
    exact ⟨hau, hac⟩
  · intro cond_id wd wdoc st₂ evs h
    cases hcond : st.store.get_condition cond_id with
    | none =>
        simp only [waive_condition, hcond] at h
        exact Except.noConfusion h
    | some cond =>
        rw [waive_condition_ok cfg st cond_id wd wdoc cond hcond] at h
        simp only [Except.ok.injEq, Prod.mk.injEq] at h
        obtain ⟨h2, h3⟩ := h
        subst h2
        subst h3
        exact ⟨rfl, rfl⟩

/-- C2 witness: the disabled-versioning half on the demo state, and the
null-commit half on the demo state. -/
theorem claim2_amended_degraded_logging_witness :
    demoCfgNoVer.versioning_enabled = false ∧
    demoState.store.get_document "d1" = Option.some demoDoc ∧
    demoDoc.id = "d1" ∧
    (∃ st₂, update_document_status demoCfgNoVer demoState "d1"
          DocumentStatus.final "" =
        Except.ok (updDocPure demoCfgNoVer.today demoDoc DocumentStatus.final
          "", st₂, [Event.save_document "d1"]) ∧
      st₂.audit_log = demoState.audit_log ∧
      st₂.store.get_document "d1" =
        Option.some (updDocPure demoCfgNoVer.today demoDoc
          DocumentStatus.final "")) :=
  ⟨rfl, rfl, rfl,
    ((claim2_amended_degraded_logging demoCfgNoVer demoState).1 rfl).2.1
      "d1" DocumentStatus.final "" demoDoc rfl rfl⟩

/-- C4 counterexample: the claim says every mutating operation, including
add_party, produces exactly one audit record and one revision commit when
versioning is enabled.  Adding a party on the demo state with versioning
enabled produces zero of each. -/
theorem claim4_counterexample_add_party_no_provenance :
    (okTrace (add_party demoCfg demoState "t1" "Agent Bank"
        [PartyRole.lender] "" "" "")).map
      (fun evs => (auditAppendCount evs, vcCommitCount evs)) =
      Option.some (0, 0) := by
  rfl

/-- C4 (amended): with versioning enabled, create_transaction,
update_document_status and update_condition_status each produce exactly one
audit append and one revision commit per call; add_party, add_document,
link_document_to_condition, satisfy_condition and waive_condition produce
none. -/
theorem claim4_amended_one_record_per_logged_mutation (cfg : EngineConfig)
    (st : EngineState) (hver : cfg.versioning_enabled = true) :
    (∀ name tt fa cd dflag cflag,
      auditAppendCount
        (create_transaction cfg st name tt fa cd dflag cflag).2.2 = 1 ∧
      vcCommitCount
        (create_transaction cfg st name tt fa cd dflag cflag).2.2 = 1) ∧
    (∀ doc_id status notes doc,
      st.store.get_document doc_id = Option.some doc →
      ∃ d st₂ evs, update_document_status cfg st doc_id status notes =
          Except.ok (d, st₂, evs) ∧
        auditAppendCount evs = 1 ∧ vcCommitCount evs = 1) ∧
    (∀ cond_id status notes cond,
      st.store.get_condition cond_id = Option.some cond →
      ∃ c st₂ evs, update_condition_status cfg st cond_id status notes =
          Except.ok (c, st₂, evs) ∧
        auditAppendCount evs = 1 ∧ vcCommitCount evs = 1) ∧
    (∀ txn_id name roles sn jd et p st₂ evs,
      add_party cfg st txn_id name roles sn jd et = Except.ok (p, st₂, evs) →
      auditAppendCount evs = 0 ∧ vcCommitCount evs = 0) ∧
    (∀ txn_id dt title rp due d st₂ evs,
      add_document cfg st txn_id dt title rp due = Except.ok (d, st₂, evs) →
      auditAppendCount evs = 0 ∧ vcCommitCount evs = 0) ∧
    (∀ doc_id cond_id st₂ evs,
      link_document_to_condition cfg st doc_id cond_id =
        Except.ok (st₂, evs) →
      auditAppendCount evs = 0 ∧ vcCommitCount evs = 0) ∧
    (∀ cond_id doc_ids st₂ evs,
      satisfy_condition cfg st cond_id doc_ids = Except.ok (st₂, evs) →
      auditAppendCount evs = 0 ∧ vcCommitCount evs = 0) ∧
    (∀ cond_id wd wdoc st₂ evs,
      waive_condition cfg st cond_id wd wdoc = Except.ok (st₂, evs) →
      auditAppendCount evs = 0 ∧ vcCommitCount evs = 0) := by
  refine ⟨?_, ?_, ?_, ?_, ?_, ?_, ?_, ?_⟩
  · intro name tt fa cd dflag cflag
    obtain ⟨rest, htr, hac, hvc⟩ :=
      create_transaction_trace_ver cfg st name tt fa cd dflag cflag hver
    constructor
    · rw [htr, auditAppendCount_cons_save_txn,
        auditAppendCount_cons_of_ne _ _ rfl, auditAppendCount_cons_append,
        hac]
    · rw [htr, vcCommitCount_cons_save_txn, vcCommitCount_cons_commit,
        vcCommitCount_cons_of_ne _ _ rfl, hvc]
  · intro doc_id status notes doc hdoc
    exact ⟨_, _, _,
      update_document_status_ver cfg st doc_id status notes doc hdoc hver,
      rfl, rfl⟩
  · intro cond_id status notes cond hcond
    exact ⟨_, _, _,
      update_condition_status_ver cfg st cond_id status notes cond hcond hver,
      rfl, rfl⟩
  · intro txn_id name roles sn jd et p st₂ evs h
    cases htxn : st.store.get_transaction txn_id with
    | none =>
        rw [add_party, htxn] at h
        exact Except.noConfusion h
    | some txn =>
        rw [add_party_ok cfg st txn_id name roles sn jd et txn htxn] at h
        simp only [Except.ok.injEq, Prod.mk.injEq] at h
        obtain ⟨_, _, h3⟩ := h
        subst h3
        exact ⟨rfl, rfl⟩
  · intro txn_id dt title rp due d st₂ evs h
    cases htxn : st.store.get_transaction txn_id with
    | none =>
        rw [add_document, htxn] at h
        exact Except.noConfusion h
    | some txn =>
        obtain ⟨d₂, s₂, e₂, heq, hac, hvc, _⟩ :=
          add_document_trace cfg st txn_id dt title rp due txn htxn
        rw [heq] at h
        simp only [Except.ok.injEq, Prod.mk.injEq] at h
        obtain ⟨_, _, h3⟩ := h
        subst h3
        exact ⟨hac, hvc⟩
  · intro doc_id cond_id st₂ evs h
    obtain ⟨hac, hvc, _⟩ := link_trace cfg st doc_id cond_id st₂ evs h
    exact ⟨hac, hvc⟩
  · intro cond_id doc_ids st₂ evs h
    obtain ⟨hac, hvc, _⟩ :=
      satisfy_condition_trace cfg st cond_id doc_ids st₂ evs h
    exact ⟨hac, hvc⟩
  · intro cond_id wd wdoc st₂ evs h
    cases hcond : st.store.get_condition cond_id with
    | none =>
        simp only [waive_condition, hcond] at h
        exact Except.noConfusion h
    | some cond =>
        rw [waive_condition_ok cfg st cond_id wd wdoc cond hcond] at h
        simp only [Except.ok.injEq, Prod.mk.injEq] at h
        obtain ⟨_, h3⟩ := h
        subst h3
        exact ⟨rfl, rfl⟩

/-- C4 witness: the logged document update produces exactly one audit append
and one commit on the demo state. -/
theorem claim4_amended_one_record_witness :
    demoCfg.versioning_enabled = true ∧
    demoState.store.get_document "d1" = Option.some demoDoc ∧
    ∃ d st₂ evs,
      update_document_status demoCfg demoState "d1" DocumentStatus.final "" =
        Except.ok (d, st₂, evs) ∧
      auditAppendCount evs = 1 ∧ vcCommitCount evs = 1 :=
  ⟨rfl, rfl,
    (claim4_amended_one_record_per_logged_mutation demoCfg demoState rfl).2.1
      "d1" DocumentStatus.final "" demoDoc rfl⟩

/-- C5 counterexample: the claim says every engine call taking an entity id
fails with an explicit error when the entity is missing.  With versioning
enabled, archive_generated_document on an unknown transaction id proceeds
and archives with the placeholder transaction name Unknown instead of
failing; the probe configuration echoes the metadata into the entry. -/
theorem claim5_counterexample_archive_proceeds :
    (archive_generated_document probeArchiveCfg demoState "generated.docx"
        "closing_certificate" "missing-txn").toOption.map
      (fun r => match r.1 with
        | ArchiveResult.entry e => e.original_name
        | ArchiveResult.error_dict m => m) = Option.some "Unknown" := by
  rfl

/-- C5 (amended): every listed engine call except archive_generated_document
fails with an explicit not-found error when the referenced entity is missing
(create_closing_snapshot under enabled versioning); with versioning enabled,
archive_generated_document on a missing transaction id instead proceeds and
passes the placeholder name Unknown to the archive backend. -/
theorem claim5_amended_not_found_errors (cfg : EngineConfig)
    (st : EngineState) :
    (∀ txn_id name roles sn jd et,
      st.store.get_transaction txn_id = Option.none →
      add_party cfg st txn_id name roles sn jd et =
        Except.error ("Transaction " ++ txn_id ++ " not found")) ∧
    (∀ txn_id dt title rp due,
      st.store.get_transaction txn_id = Option.none →
      add_document cfg st txn_id dt title rp due =
        Except.error ("Transaction " ++ txn_id ++ " not found")) ∧
    (∀ doc_id status notes,
      st.store.get_document doc_id = Option.none →
      update_document_status cfg st doc_id status notes =
        Except.error ("Document " ++ doc_id ++ " not found")) ∧
    (∀ cond_id status notes,
      st.store.get_condition cond_id = Option.none →
      update_condition_status cfg st cond_id status notes =
        Except.error ("Condition " ++ cond_id ++ " not found")) ∧
    (∀ doc_id cond_id,
      st.store.get_document doc_id = Option.none →
      link_document_to_condition cfg st doc_id cond_id =
        Except.error ("Document " ++ doc_id ++ " not found")) ∧
    (∀ doc_id cond_id doc,
      st.store.get_document doc_id = Option.some doc →
      st.store.get_condition cond_id = Option.none →
      link_document_to_condition cfg st doc_id cond_id =
        Except.error ("Condition " ++ cond_id ++ " not found")) ∧
    (∀ cond_id doc_ids,
      st.store.get_condition cond_id = Option.none →
      satisfy_condition cfg st cond_id doc_ids =
        Except.error ("Condition " ++ cond_id ++ " not found")) ∧
    (∀ cond_id wd wdoc,
      st.store.get_condition cond_id = Option.none →
      waive_condition cfg st cond_id wd wdoc =
        Except.error ("Condition " ++ cond_id ++ " not found")) ∧
    (∀ txn_id,
      st.store.get_transaction txn_id = Option.none →
      generate_checklist cfg st txn_id =
        Except.error ("Transaction " ++ txn_id ++ " not found")) ∧
    (∀ txn_id,
      st.store.get_transaction txn_id = Option.none →
      get_status_summary cfg st txn_id =
        Except.error ("Transaction " ++ txn_id ++ " not found")) ∧
    (cfg.versioning_enabled = true →
      ∀ txn_id, st.store.get_transaction txn_id = Option.none →
      create_closing_snapshot cfg st txn_id =
        Except.error ("Transaction " ++ txn_id ++ " not found")) ∧
    (cfg.versioning_enabled = true →
      ∀ filepath doc_type txn_id,
      st.store.get_transaction txn_id = Option.none →
      ∃ st₂ evs, archive_generated_document cfg st filepath doc_type txn_id =
        Except.ok (ArchiveResult.entry
          (cfg.archive_document filepath doc_type txn_id
            [("transaction_name", PyValue.str "Unknown"),
             ("generated_at", PyValue.str cfg.now.iso)]), st₂, evs)) := by
  refine ⟨?_, ?_, ?_, ?_, ?_, ?_, ?_, ?_, ?_, ?_, ?_, ?_⟩
  · intro txn_id name roles sn jd et h
    simp [add_party, h]
  · intro txn_id dt title rp due h
    simp [add_document, h]
  · intro doc_id status notes h
    simp [update_document_status, h]
  · intro cond_id status notes h
    simp [update_condition_status, h]
  · intro doc_id cond_id h
    simp [link_document_to_condition, h]
  · intro doc_id cond_id doc hdoc h
    simp [link_document_to_condition, hdoc, h]
  · intro cond_id doc_ids h
    simp [satisfy_condition, h]
  · intro cond_id wd wdoc h
    simp [waive_condition, h]
  · intro txn_id h
    simp [generate_checklist, h]
  · intro txn_id h
    simp [get_status_summary, h]
  · intro hver txn_id h
    simp [create_closing_snapshot, hver, h]
  · intro hver filepath doc_type txn_id h
    unfold archive_generated_document
    rw [hver, h]
    exact ⟨_, _, rfl⟩

/-- C5 witness: a missing id makes add_party fail with an explicit error on
the demo state. -/
theorem claim5_amended_not_found_errors_witness :
    demoState.store.get_transaction "zz" = Option.none ∧
    add_party demoCfg demoState "zz" "P" [PartyRole.lender] "" "" "" =
      Except.error ("Transaction " ++ "zz" ++ " not found") :=
  ⟨rfl,
    (claim5_amended_not_found_errors demoCfg demoState).1 "zz" "P"
      [PartyRole.lender] "" "" "" rfl⟩

/-- C8: the source-string coercion of parse_definitions maps every string
that is no TermSource value to the fallback member OTHER without raising,
maps every valid value to the corresponding member, and parse_definitions
feeds exactly the coerced member to the terms parser. -/
theorem claim8_term_source_silent_fallback (cfg : EngineConfig)
    (st : EngineState) (text source : String)
    (hterms : cfg.terms_enabled = true) :
    (termSourceFromValue source = Option.none →
      parseDefinitionsSource source = TermSource.other) ∧
    (∀ m, termSourceFromValue source = Option.some m →
      parseDefinitionsSource source = m) ∧
    (∀ m : TermSource, source = m.value →
      parseDefinitionsSource source = m) ∧
    (parse_definitions cfg st text source).1 =
      cfg.terms_parse text (parseDefinitionsSource source) := by
  refine ⟨?_, ?_, ?_, ?_⟩
  · intro h
    unfold parseDefinitionsSource
    rw [h]
  · intro m h
    unfold parseDefinitionsSource
    rw [h]
  · intro m h
    subst h
    cases m <;> rfl
  · simp [parse_definitions, hterms]

/-- C8 witness: an invalid source string falls back to OTHER, a valid one
resolves to its member, on the demo configuration. -/
theorem claim8_term_source_silent_fallback_witness :
    demoCfg.terms_enabled = true ∧
    termSourceFromValue "loan_agreement" = Option.none ∧
    parseDefinitionsSource "loan_agreement" = TermSource.other ∧
    parseDefinitionsSource "credit_agreement" = TermSource.credit_agreement ∧
    (parse_definitions demoCfg demoState "Article I" "loan_agreement").1 =
      demoCfg.terms_parse "Article I"
        (parseDefinitionsSource "loan_agreement") :=
  ⟨rfl, rfl,
    (claim8_term_source_silent_fallback demoCfg demoState "Article I"
      "loan_agreement" rfl).1 rfl,
    (claim8_term_source_silent_fallback demoCfg demoState "Article I"
      "credit_agreement" rfl).2.2.1 TermSource.credit_agreement rfl,
    (claim8_term_source_silent_fallback demoCfg demoState "Article I"
      "loan_agreement" rfl).2.2.2⟩

/-! ## Counting lemmas for the expected-document relationship edges -/

/-- One expected-document edge value. -/
def mkExpectedEdge (doc_id cond_id txn_id : String) : Relationship where
  from_type := "document"
  from_id := doc_id
  relation := RelationshipType.expected_doc_for_condition
  to_type := "condition"
  to_id := cond_id
  transaction_id := txn_id

/-- The edge candidate for one expected-document key, the filterMap body of
expectedEdges. -/
def edgeFor (doc_key_map : List (String × String)) (cond_id txn_id : String)
    (doc_key : String) : Option Relationship :=
  match alookup doc_key doc_key_map with
  | Option.none => Option.none
  | Option.some doc_id =>
      if doc_id.isEmpty then Option.none
      else Option.some (mkExpectedEdge doc_id cond_id txn_id)

theorem expectedEdges_eq (m : List (String × String))
    (tmpl : ConditionTemplate) (cid tid : String) :
    expectedEdges m tmpl cid tid =
      tmpl.expected_document_keys.filterMap (edgeFor m cid tid) := rfl

theorem expectedEdges_nil_map (tmpl : ConditionTemplate) (cid tid : String) :
    expectedEdges [] tmpl cid tid = [] := by
  rw [expectedEdges_eq]
  exact List.filterMap_eq_nil_iff.mpr (fun a _ => rfl)

theorem condEdgesFrom_nil_map (tid : String) :
    ∀ (cts : List ConditionTemplate) (n : Nat),
      condEdgesFrom [] tid cts n = [] := by
  intro cts
  induction cts with
  | nil => intro n; rfl
  | cons c rest ih =>
      intro n
      simp only [condEdgesFrom, ih, List.append_nil]
      exact expectedEdges_nil_map c (mkId n) tid

theorem condRelsOf_some (m : List (String × String)) (tid : String)
    (cts : List ConditionTemplate) (n : Nat) :
    condRelsOf (Option.some m) tid cts n = condEdgesFrom m tid cts n := by
  unfold condRelsOf
  dsimp only
  by_cases hm : m.isEmpty
  · rw [if_pos hm]
    rw [List.isEmpty_iff] at hm
    subst hm
    exact (condEdgesFrom_nil_map tid cts n).symm
  · rw [if_neg hm]

theorem docKeyIds_snd :
    ∀ (ts : List (String × DocumentTemplate)) (n : Nat),
      (docKeyIds ts n).map Prod.snd =
        (List.range ts.length).map (fun i => mkId (n + i)) := by
  intro ts
  induction ts with
  | nil => intro n; rfl
  | cons t rest ih =>
      intro n
      obtain ⟨k, tmpl⟩ := t
      simp only [docKeyIds, List.map_cons, List.length_cons,
        List.range_succ_eq_map, List.map_map, ih]
      congr 1
      apply List.map_congr_left
      intro i _
      simp only [Function.comp_apply]
      congr 1
      omega

theorem docKeyIds_values_nodup (ts : List (String × DocumentTemplate))
    (n : Nat) : ((docKeyIds ts n).map Prod.snd).Nodup := by
  rw [docKeyIds_snd]
  refine (List.nodup_range _).map ?_
  intro a b h
  have := mkId_inj h
  omega

theorem docKeyIds_value_nonempty :
    ∀ (ts : List (String × DocumentTemplate)) (n : Nat) {k d : String},
      (k, d) ∈ docKeyIds ts n → d.isEmpty = false := by
  intro ts
  induction ts with
  | nil =>
      intro n k d h
      simp [docKeyIds] at h
  | cons t rest ih =>
      intro n k d h
      obtain ⟨key, tmpl⟩ := t
      rcases List.mem_cons.mp h with h' | h'
      · rw [Prod.mk.injEq] at h'
        rw [h'.2]
        exact mkId_isEmpty n
      · exact ih (n + 1) h'

theorem edgeFor_some_shape (m : List (String × String)) (cid tid k : String)
    {r : Relationship} (h : edgeFor m cid tid k = Option.some r) :
    r.from_type = "document" ∧
    r.relation = RelationshipType.expected_doc_for_condition ∧
    r.to_type = "condition" ∧ r.to_id = cid ∧ r.transaction_id = tid ∧
    alookup k m = Option.some r.from_id := by
  unfold edgeFor at h
  cases hak : alookup k m with
  | none =>
      simp only [hak] at h
      exact Option.noConfusion h
  | some doc_id =>
      simp only [hak] at h
      by_cases he : doc_id.isEmpty
      · rw [if_pos he] at h
        exact Option.noConfusion h
      · rw [if_neg he] at h
        rw [Option.some.injEq] at h
        subst h
        exact ⟨rfl, rfl, rfl, rfl, rfl, rfl⟩

theorem expectedEdges_mem (m : List (String × String))
    (tmpl : ConditionTemplate) (cid tid : String) {r : Relationship}
    (hr : r ∈ expectedEdges m tmpl cid tid) :
    r.from_type = "document" ∧
    r.relation = RelationshipType.expected_doc_for_condition ∧
    r.to_type = "condition" ∧ r.to_id = cid ∧ r.transaction_id = tid ∧
    ∃ k, k ∈ tmpl.expected_document_keys ∧
      alookup k m = Option.some r.from_id := by
  rw [expectedEdges_eq] at hr
  obtain ⟨k, hk, hf⟩ := List.mem_filterMap.mp hr
  obtain ⟨h1, h2, h3, h4, h5, h6⟩ := edgeFor_some_shape m cid tid k hf
  exact ⟨h1, h2, h3, h4, h5, k, hk, h6⟩

theorem edges_countP_from_zero (m : List (String × String))
    (cid tid d : String) (hvnd : (m.map Prod.snd).Nodup) (k : String)
    (hak : alookup k m = Option.some d) :
    ∀ ks : List String, k ∉ ks →
      (ks.filterMap (edgeFor m cid tid)).countP
        (fun r => r.from_id == d) = 0 := by
  intro ks
  induction ks with
  | nil => intro _; rfl
  | cons k₀ rest ih =>
      intro hk
      have hk₀ : k ≠ k₀ := fun h => hk (h ▸ List.mem_cons_self k₀ rest)
      have hkr : k ∉ rest := fun h => hk (List.mem_cons_of_mem k₀ h)
      rw [List.filterMap_cons]
      cases hf : edgeFor m cid tid k₀ with
      | none => exact ih hkr
      | some r =>
          show ((r :: rest.filterMap (edgeFor m cid tid)).countP
            (fun r => r.from_id == d)) = 0
          rw [List.countP_cons, ih hkr]
          have h6 := (edgeFor_some_shape m cid tid k₀ hf).2.2.2.2.2
          have hrne : r.from_id ≠ d := fun he =>
            hk₀ (assoc_value_inj hvnd (alookup_eq_some_mem hak)
              (alookup_eq_some_mem (he ▸ h6)))
          rw [beq_eq_false_iff_ne.mpr hrne]
          rfl

theorem edges_countP_from_one (m : List (String × String))
    (cid tid d : String) (hvnd : (m.map Prod.snd).Nodup)
    (hne : ∀ p ∈ m, (Prod.snd p).isEmpty = false) (k : String)
    (hak : alookup k m = Option.some d) :
    ∀ ks : List String, ks.Nodup → k ∈ ks →
      (ks.filterMap (edgeFor m cid tid)).countP
        (fun r => r.from_id == d) = 1 := by
  intro ks
  induction ks with
  | nil =>
      intro _ h
      simp at h
  | cons k₀ rest ih =>
      intro hnd hk
      rw [List.nodup_cons] at hnd
      by_cases hkk : k = k₀
      · subst hkk
        have hdne : d.isEmpty = false := hne (k, d) (alookup_eq_some_mem hak)
        have hf : edgeFor m cid tid k =
            Option.some (mkExpectedEdge d cid tid) := by
          unfold edgeFor
          simp only [hak, hdne, Bool.false_eq_true, if_false]
        rw [List.filterMap_cons, hf]
        show ((mkExpectedEdge d cid tid ::
            rest.filterMap (edgeFor m cid tid)).countP
          (fun r => r.from_id == d)) = 1
        rw [List.countP_cons,
          edges_countP_from_zero m cid tid d hvnd k hak rest hnd.1]
        simp [mkExpectedEdge]
      · have hkr : k ∈ rest := (List.mem_cons.mp hk).resolve_left hkk
        rw [List.filterMap_cons]
        cases hf : edgeFor m cid tid k₀ with
        | none => exact ih hnd.2 hkr
        | some r =>
            show ((r :: rest.filterMap (edgeFor m cid tid)).countP
              (fun r => r.from_id == d)) = 1
            rw [List.countP_cons, ih hnd.2 hkr]
            have h6 := (edgeFor_some_shape m cid tid k₀ hf).2.2.2.2.2
            have hrne : r.from_id ≠ d := fun he =>
              hkk (assoc_value_inj hvnd (alookup_eq_some_mem hak)
                (alookup_eq_some_mem (he ▸ h6)))
            rw [beq_eq_false_iff_ne.mpr hrne]
            rfl

theorem edges_length_filter (m : List (String × String)) (cid tid : String)
    (hne : ∀ p ∈ m, (Prod.snd p).isEmpty = false) :
    ∀ ks : List String,
      (ks.filterMap (edgeFor m cid tid)).length =
        (ks.filter (fun k => (alookup k m).isSome)).length := by
  intro ks
  induction ks with
  | nil => rfl
  | cons k₀ rest ih =>
      rw [List.filterMap_cons, List.filter_cons]
      cases hak : alookup k₀ m with
      | none =>
          have hf : edgeFor m cid tid k₀ = Option.none := by
            unfold edgeFor
            simp only [hak]
          rw [hf]
          show (rest.filterMap (edgeFor m cid tid)).length =
            (rest.filter (fun k => (alookup k m).isSome)).length
          exact ih
      | some v =>
          have hvne : v.isEmpty = false := hne (k₀, v) (alookup_eq_some_mem hak)
          have hf : edgeFor m cid tid k₀ =
              Option.some (mkExpectedEdge v cid tid) := by
            unfold edgeFor
            simp only [hak, hvne, Bool.false_eq_true, if_false]
          rw [hf]
          show ((mkExpectedEdge v cid tid ::
              rest.filterMap (edgeFor m cid tid)).length) =
            ((k₀ :: rest.filter (fun k => (alookup k m).isSome)).length)
          rw [List.length_cons, List.length_cons, ih]

theorem condEdgesFrom_to_id (m : List (String × String)) (tid : String) :
    ∀ (cts : List ConditionTemplate) (n : Nat) {r : Relationship},
      r ∈ condEdgesFrom m tid cts n →
      ∃ i, i < cts.length ∧ r.to_id = mkId (n + i) := by
  intro cts
  induction cts with
  | nil =>
      intro n r h
      simp [condEdgesFrom] at h
  | cons c rest ih =>
      intro n r h
      simp only [condEdgesFrom] at h
      rcases List.mem_append.mp h with h₂ | h₂
      · refine ⟨0, by rw [List.length_cons]; omega, ?_⟩
        rw [(expectedEdges_mem m c (mkId n) tid h₂).2.2.2.1, Nat.add_zero]
      · obtain ⟨i, hi, he⟩ := ih (n + 1) h₂
        refine ⟨i + 1, by rw [List.length_cons]; omega, ?_⟩
        rw [he]
        congr 1
        omega

theorem condEdgesFrom_shape (m : List (String × String)) (tid : String) :
    ∀ (cts : List ConditionTemplate) (n : Nat) {r : Relationship},
      r ∈ condEdgesFrom m tid cts n →
      r.from_type = "document" ∧
      r.relation = RelationshipType.expected_doc_for_condition ∧
      r.to_type = "condition" ∧ r.transaction_id = tid := by
  intro cts
  induction cts with
  | nil =>
      intro n r h
      simp [condEdgesFrom] at h
  | cons c rest ih =>
      intro n r h
      simp only [condEdgesFrom] at h
      rcases List.mem_append.mp h with h₂ | h₂
      · obtain ⟨h1, h2, h3, _, h5, _⟩ := expectedEdges_mem m c (mkId n) tid h₂
        exact ⟨h1, h2, h3, h5⟩
      · exact ih (n + 1) h₂

theorem condEdgesFrom_count_one (m : List (String × String)) (tid d : String)
    (hvnd : (m.map Prod.snd).Nodup)
    (hne : ∀ p ∈ m, (Prod.snd p).isEmpty = false) :
    ∀ (cts : List ConditionTemplate) (n j : Nat) (ct : ConditionTemplate),
      cts[j]? = Option.some ct → ct.expected_document_keys.Nodup →
      ∀ k, k ∈ ct.expected_document_keys → alookup k m = Option.some d →
      (condEdgesFrom m tid cts n).countP
        (fun r => r.from_id == d && r.to_id == mkId (n + j)) = 1 := by
  intro cts
  induction cts with
  | nil =>
      intro n j ct hj
      simp at hj
  | cons c rest ih =>
      intro n j ct hj hknd k hk hak
      simp only [condEdgesFrom]
      rw [List.countP_append]
      cases j with
      | zero =>
          have hc : c = ct := by
            rw [List.getElem?_cons_zero, Option.some.injEq] at hj
            exact hj
          subst hc
          have hhead : (expectedEdges m c (mkId n) tid).countP
              (fun r => r.from_id == d && r.to_id == mkId (n + 0)) =
              (expectedEdges m c (mkId n) tid).countP
                (fun r => r.from_id == d) := by
            apply List.countP_congr
            intro r hr
            rw [(expectedEdges_mem m c (mkId n) tid hr).2.2.2.1]
            simp
          have htail : (condEdgesFrom m tid rest (n + 1)).countP
              (fun r => r.from_id == d && r.to_id == mkId (n + 0)) = 0 := by
            apply List.countP_eq_zero.mpr
            intro r hr
            obtain ⟨i, hi, he⟩ := condEdgesFrom_to_id m tid rest (n + 1) hr
            rw [he]
            simp only [Bool.and_eq_true, not_and]
            intro _ habs
            have := mkId_inj (beq_iff_eq.mp habs)
            omega
          rw [hhead, htail, expectedEdges_eq,
            edges_countP_from_one m (mkId n) tid d hvnd hne k hak
              c.expected_document_keys hknd hk]
      | succ j' =>
          have hj' : rest[j']? = Option.some ct := by
            rw [List.getElem?_cons_succ] at hj
            exact hj
          have hhead : (expectedEdges m c (mkId n) tid).countP
              (fun r => r.from_id == d && r.to_id == mkId (n + (j' + 1))) = 0 := by
            apply List.countP_eq_zero.mpr
            intro r hr
            rw [(expectedEdges_mem m c (mkId n) tid hr).2.2.2.1]
            simp only [Bool.and_eq_true, not_and]
            intro _ habs
            have := mkId_inj (beq_iff_eq.mp habs)
            omega
          have harg : n + 1 + j' = n + (j' + 1) := by omega
          have htail := ih (n + 1) j' ct hj' hknd k hk hak
          simp only [harg] at htail
          rw [hhead, htail]

theorem condEdgesFrom_count_to (m : List (String × String)) (tid : String)
    (hne : ∀ p ∈ m, (Prod.snd p).isEmpty = false) :
    ∀ (cts : List ConditionTemplate) (n j : Nat) (ct : ConditionTemplate),
      cts[j]? = Option.some ct →
      (condEdgesFrom m tid cts n).countP
        (fun r => r.to_id == mkId (n + j)) =
        (ct.expected_document_keys.filter
          (fun k => (alookup k m).isSome)).length := by
  intro cts
  induction cts with
  | nil =>
      intro n j ct hj
      simp at hj
  | cons c rest ih =>
      intro n j ct hj
      simp only [condEdgesFrom]
      rw [List.countP_append]
      cases j with
      | zero =>
          have hc : c = ct := by
            rw [List.getElem?_cons_zero, Option.some.injEq] at hj
            exact hj
          subst hc
          have hhead : (expectedEdges m c (mkId n) tid).countP
              (fun r => r.to_id == mkId (n + 0)) =
              (expectedEdges m c (mkId n) tid).length := by
            apply List.countP_eq_length.mpr
            intro r hr
            rw [(expectedEdges_mem m c (mkId n) tid hr).2.2.2.1]
            simp
          have htail : (condEdgesFrom m tid rest (n + 1)).countP
              (fun r => r.to_id == mkId (n + 0)) = 0 := by
            apply List.countP_eq_zero.mpr
            intro r hr
            obtain ⟨i, hi, he⟩ := condEdgesFrom_to_id m tid rest (n + 1) hr
            rw [he]
            intro habs
            have := mkId_inj (beq_iff_eq.mp habs)
            omega
          rw [hhead, htail, Nat.add_zero, expectedEdges_eq,
            edges_length_filter m (mkId n) tid hne c.expected_document_keys]
      | succ j' =>
          have hj' : rest[j']? = Option.some ct := by
            rw [List.getElem?_cons_succ] at hj
            exact hj
          have hhead : (expectedEdges m c (mkId n) tid).countP
              (fun r => r.to_id == mkId (n + (j' + 1))) = 0 := by
            apply List.countP_eq_zero.mpr
            intro r hr
            rw [(expectedEdges_mem m c (mkId n) tid hr).2.2.2.1]
            intro habs
            have := mkId_inj (beq_iff_eq.mp habs)
            omega
          have harg : n + 1 + j' = n + (j' + 1) := by omega
          have htail := ih (n + 1) j' ct hj'
          simp only [harg] at htail
          rw [hhead, htail, Nat.zero_add]

/-- C6: during create_transaction with standard documents and standard
conditions enabled, the relationship edges added are exactly the ontology
derived ones, and for every condition template and every expected document
key of that template that resolves through the document key map, exactly one
EXPECTED_DOC_FOR_CONDITION edge runs from that document to that condition,
tagged with the transaction id; keys with no matching created document add
no edge (the total count of edges into the condition equals the number of
resolving keys). -/
theorem claim6_expected_doc_condition_edges (cfg : EngineConfig)
    (st : EngineState) (name : String) (tt : TransactionType) (fa : PyFloat)
    (cd : Option PyDate)
    (_hdk : (cfg.ontology.document_templates.map Prod.fst).Nodup)
    (j : Nat) (ct : ConditionTemplate)
    (hj : cfg.ontology.condition_templates[j]? = Option.some ct)
    (hek : ct.expected_document_keys.Nodup) :
    (create_transaction cfg st name tt fa cd true true).2.1.relationships =
      st.relationships ++
        condEdgesFrom
          (docKeyIds cfg.ontology.document_templates (st.next_id + 1))
          (mkId st.next_id) cfg.ontology.condition_templates
          (st.next_id + 1 + cfg.ontology.document_templates.length) ∧
    (∀ k d, k ∈ ct.expected_document_keys →
      alookup k (docKeyIds cfg.ontology.document_templates (st.next_id + 1)) =
        Option.some d →
      (condEdgesFrom
          (docKeyIds cfg.ontology.document_templates (st.next_id + 1))
          (mkId st.next_id) cfg.ontology.condition_templates
          (st.next_id + 1 + cfg.ontology.document_templates.length)).countP
        (fun r => r.from_type == "document" && r.from_id == d &&
          r.relation == RelationshipType.expected_doc_for_condition &&
          r.to_type == "condition" &&
          r.to_id == mkId (st.next_id + 1 +
            cfg.ontology.document_templates.length + j) &&
          r.transaction_id == mkId st.next_id) = 1) ∧
    (condEdgesFrom
        (docKeyIds cfg.ontology.document_templates (st.next_id + 1))
        (mkId st.next_id) cfg.ontology.condition_templates
        (st.next_id + 1 + cfg.ontology.document_templates.length)).countP
      (fun r => r.to_id == mkId (st.next_id + 1 +
        cfg.ontology.document_templates.length + j)) =
      (ct.expected_document_keys.filter (fun k =>
        (alookup k (docKeyIds cfg.ontology.document_templates
          (st.next_id + 1))).isSome)).length := by
  have hvnd := docKeyIds_values_nodup cfg.ontology.document_templates
    (st.next_id + 1)
  have hne : ∀ p ∈ docKeyIds cfg.ontology.document_templates (st.next_id + 1),
      (Prod.snd p).isEmpty = false := by
    intro p hp
    obtain ⟨a, b⟩ := p
    exact docKeyIds_value_nonempty cfg.ontology.document_templates
      (st.next_id + 1) hp
  refine ⟨?_, ?_, ?_⟩
  · rw [create_transaction_rels, condRelsOf_some]
  · intro k d hk hak
    have hcong : (condEdgesFrom
        (docKeyIds cfg.ontology.document_templates (st.next_id + 1))
        (mkId st.next_id) cfg.ontology.condition_templates
        (st.next_id + 1 + cfg.ontology.document_templates.length)).countP
        (fun r => r.from_type == "document" && r.from_id == d &&
          r.relation == RelationshipType.expected_doc_for_condition &&
          r.to_type == "condition" &&
          r.to_id == mkId (st.next_id + 1 +
            cfg.ontology.document_templates.length + j) &&
          r.transaction_id == mkId st.next_id) =
        (condEdgesFrom
          (docKeyIds cfg.ontology.document_templates (st.next_id + 1))
          (mkId st.next_id) cfg.ontology.condition_templates
          (st.next_id + 1 + cfg.ontology.document_templates.length)).countP
        (fun r => r.from_id == d && r.to_id == mkId (st.next_id + 1 +
          cfg.ontology.document_templates.length + j)) := by
      apply List.countP_congr
      intro r hr
      obtain ⟨h1, h2, h3, h4⟩ := condEdgesFrom_shape
        (docKeyIds cfg.ontology.document_templates (st.next_id + 1))
        (mkId st.next_id) cfg.ontology.condition_templates
        (st.next_id + 1 + cfg.ontology.document_templates.length) hr
      simp [h1, h2, h3, h4]
    rw [hcong]
    exact condEdgesFrom_count_one
      (docKeyIds cfg.ontology.document_templates (st.next_id + 1))
      (mkId st.next_id) d hvnd hne cfg.ontology.condition_templates
      (st.next_id + 1 + cfg.ontology.document_templates.length) j ct hj hek
      k hk hak
  · exact condEdgesFrom_count_to
      (docKeyIds cfg.ontology.document_templates (st.next_id + 1))
      (mkId st.next_id) hne cfg.ontology.condition_templates
      (st.next_id + 1 + cfg.ontology.document_templates.length) j ct hj

theorem claim6_expected_doc_condition_edges_witness :
    (demoCfg.ontology.document_templates.map Prod.fst).Nodup ∧
    demoCfg.ontology.condition_templates[0]? = Option.some demoCondTemplate ∧
    demoCondTemplate.expected_document_keys.Nodup ∧
    "credit_agreement" ∈ demoCondTemplate.expected_document_keys ∧
    alookup "credit_agreement"
      (docKeyIds demoCfg.ontology.document_templates 1) =
      Option.some (mkId 1) ∧
    ((create_transaction demoCfg demoState "W" TransactionType.term_loan_a
        { lit := "1.0" } Option.none true true).2.1.relationships =
      demoState.relationships ++
        condEdgesFrom (docKeyIds demoCfg.ontology.document_templates 1)
          (mkId 0) demoCfg.ontology.condition_templates 3) ∧
    (condEdgesFrom (docKeyIds demoCfg.ontology.document_templates 1)
        (mkId 0) demoCfg.ontology.condition_templates 3).countP
      (fun r => r.from_type == "document" && r.from_id == mkId 1 &&
        r.relation == RelationshipType.expected_doc_for_condition &&
        r.to_type == "condition" && r.to_id == mkId 3 &&
        r.transaction_id == mkId 0) = 1 ∧
    (condEdgesFrom (docKeyIds demoCfg.ontology.document_templates 1)
        (mkId 0) demoCfg.ontology.condition_templates 3).countP
      (fun r => r.to_id == mkId 3) =
      (demoCondTemplate.expected_document_keys.filter (fun k =>
        (alookup k
          (docKeyIds demoCfg.ontology.document_templates 1)).isSome)).length := by
  obtain ⟨h1, h2, h3⟩ := claim6_expected_doc_condition_edges demoCfg demoState
    "W" TransactionType.term_loan_a { lit := "1.0" } Option.none (by decide)
    0 demoCondTemplate rfl (by decide)
  exact ⟨by decide, rfl, by decide, by decide, rfl, h1,
    h2 "credit_agreement" (mkId 1) (by decide) rfl, h3⟩

end ProViso
